import Mathlib

/-!
Verification development for the wolfHSM SHE (Secure Hardware Extension)
server, `src/wh_server_she.c`.

The C source is embedded shallowly: bytes are `Nat` values below 256, byte
buffers are `List Nat`, 32-bit arithmetic is `% 4294967296`, and the mutable
server context (`server->she`, the NVM/key cache reachable through it) is
passed explicitly as a state record plus a key-store map.  Components that the
specification declares out of scope (the wolfCrypt AES and CMAC primitives,
the key-store internals, `wh_utils` helpers, and the numeric values in the
`wh_she_common.h` / `wh_error.h` headers, none of which are under `src/`) are
modelled from the specification; every such definition carries a doc comment
starting with `Modelled from the spec:`.

Per the specification (section 6) all multi-byte counters and size fields are
28-bit/32-bit network-byte-order (big-endian) quantities, so the 32-bit views
that the C code takes of message buffers are modelled as big-endian reads and
`wh_Utils_ntohl`/`wh_Utils_htonl` are the identity.
-/

set_option maxRecDepth 16384

set_option maxHeartbeats 1600000

/-- 32-bit unsigned truncation. -/
def u32 (n : Nat) : Nat := n % 4294967296

/-- Big-endian value of a byte list (each entry taken mod 256). -/
def ofBytesBE (l : List Nat) : Nat := l.foldl (fun a b => a * 256 + b % 256) 0

/-- The `n` low-order bytes of `v`, most significant first (big-endian). -/
def toBytesBE : Nat → Nat → List Nat
  | 0, _ => []
  | n + 1, v => toBytesBE n (v / 256) ++ [v % 256]

/-- Byte-wise XOR of two buffers of equal length. -/
def xorB (a b : List Nat) : List Nat := List.zipWith (fun x y => x ^^^ y) a b

/-- Fuel-indexed loop splitting a buffer into successive 16-byte blocks; the
fuel only bounds the number of iterations (each one consumes at least one
byte), keeping the recursion structural so that proofs can evaluate it. -/
def chunk16F : Nat → List Nat → List (List Nat)
  | 0, _ => []
  | fuel + 1, l => if l = [] then [] else l.take 16 :: chunk16F fuel (l.drop 16)

/-- Split a buffer into successive 16-byte blocks (the final block may be
short when the length is not a multiple of 16). -/
def chunk16 (l : List Nat) : List (List Nat) := chunk16F l.length l

/-- Concatenate a list of blocks back into one buffer. -/
def joinList : List (List Nat) → List Nat
  | [] => []
  | x :: xs => x ++ joinList xs

/-- Modelled from the spec: the AES-128 block encryption backend
(`wc_AesEncryptDirect`, wolfCrypt).  The specification (section 1) places the
AES primitive out of scope, behind an interface contract; none of the claims
depend on the internals of AES, only on the backend being a deterministic
invertible keyed transformation of 16-byte blocks, which is what is modelled
here.  -/
def wc_AesEncryptDirect (key block : List Nat) : List Nat :=
  toBytesBE 16 ((ofBytesBE block + (2 * ofBytesBE key + 1)) % 2 ^ 128)

/-- Modelled from the spec: the AES-128 block decryption backend, the inverse
of `wc_AesEncryptDirect`. -/
def wc_AesDecryptDirect (key block : List Nat) : List Nat :=
  toBytesBE 16 ((ofBytesBE block + (2 ^ 128 - (2 * ofBytesBE key + 1) % 2 ^ 128)) % 2 ^ 128)

/-- Modelled from the spec: AES-ECB encryption over whole blocks
(`wc_AesEcbEncrypt`). -/
def wc_AesEcbEncrypt (key data : List Nat) : List Nat :=
  joinList ((chunk16 data).map (wc_AesEncryptDirect key))

/-- Modelled from the spec: AES-ECB decryption over whole blocks
(`wc_AesEcbDecrypt`). -/
def wc_AesEcbDecrypt (key data : List Nat) : List Nat :=
  joinList ((chunk16 data).map (wc_AesDecryptDirect key))

/-- CBC encryption chaining loop: each plaintext block is XORed with the
previous ciphertext block (initially the IV) before encryption. -/
def cbcEncGo (key : List Nat) : List Nat → List (List Nat) → List (List Nat)
  | _, [] => []
  | prev, b :: bs =>
    let c := wc_AesEncryptDirect key (xorB prev b)
    c :: cbcEncGo key c bs

/-- Modelled from the spec: AES-CBC encryption (`wc_AesCbcEncrypt`). -/
def wc_AesCbcEncrypt (key iv data : List Nat) : List Nat :=
  joinList (cbcEncGo key iv (chunk16 data))

/-- CBC decryption chaining loop. -/
def cbcDecGo (key : List Nat) : List Nat → List (List Nat) → List (List Nat)
  | _, [] => []
  | prev, c :: cs => xorB (wc_AesDecryptDirect key c) prev :: cbcDecGo key c cs

/-- Modelled from the spec: AES-CBC decryption (`wc_AesCbcDecrypt`). -/
def wc_AesCbcDecrypt (key iv data : List Nat) : List Nat :=
  joinList (cbcDecGo key iv (chunk16 data))

/-- Keyed absorption used by the modelled CMAC: a multiply-accumulate over the
bytes, reduced modulo 2^128. -/
def cmacAbsorb (mul acc : Nat) (l : List Nat) : Nat :=
  l.foldl (fun a b => (a * mul + b % 256 + 1) % 2 ^ 128) acc

/-- Modelled from the spec: the AES-CMAC backend (`wc_AesCmacGenerate_ex` /
`wc_InitCmac`-`wc_CmacUpdate`-`wc_CmacFinal`, wolfCrypt).  The specification
(section 1) places the CMAC primitive out of scope; the property it relies on
(section 8) is that any modification of the message changes the 16-byte tag.
The backend is therefore modelled as a keyed compression into 16 bytes for
which any single-byte change of the message provably changes the tag; the
concrete AES-CMAC construction is not modelled. -/
def wc_AesCmacGenerate (key msg : List Nat) : List Nat :=
  toBytesBE 16 (cmacAbsorb 31 (cmacAbsorb 131 0 key) msg)

/-- Modelled from the spec: the result code of the wolfCrypt CMAC verify
backend (`wc_AesCmacVerify_ex`): zero (`.ok`) when the presented tag matches
the recomputed one, a nonzero backend code otherwise.  The backend compare
code is not an SHE error code. -/
def wc_AesCmacVerifyRc (check computed : List Nat) : Bool :=
  check = computed

/-! ## SHE constants

The four KDF constants are taken verbatim from `wh_server_she.c` lines 53-60.
Slot identifiers, flag bits and SREG bits live in `wh_she_common.h`, which is
not under `src/`; they are modelled from the specification (sections 3 and 6)
as distinct values — no claim depends on the numeric choice. -/

def WOLFHSM_SHE_KEY_UPDATE_ENC_C : List Nat :=
  [0x01, 0x01, 0x53, 0x48, 0x45, 0x00, 0x80, 0x00,
   0x00, 0x00, 0x00, 0x00, 0x00, 0x00, 0x00, 0xB0]

def WOLFHSM_SHE_KEY_UPDATE_MAC_C : List Nat :=
  [0x01, 0x02, 0x53, 0x48, 0x45, 0x00, 0x80, 0x00,
   0x00, 0x00, 0x00, 0x00, 0x00, 0x00, 0x00, 0xB0]

def WOLFHSM_SHE_PRNG_KEY_C : List Nat :=
  [0x01, 0x04, 0x53, 0x48, 0x45, 0x00, 0x80, 0x00,
   0x00, 0x00, 0x00, 0x00, 0x00, 0x00, 0x00, 0xB0]

def WOLFHSM_SHE_PRNG_SEED_KEY_C : List Nat :=
  [0x01, 0x05, 0x53, 0x48, 0x45, 0x00, 0x80, 0x00,
   0x00, 0x00, 0x00, 0x00, 0x00, 0x00, 0x00, 0xB0]

/-- Modelled from the spec: reserved SHE slot numbers (section 3). -/
def WOLFHSM_SHE_SECRET_KEY_ID : Nat := 0x0

/-- Modelled from the spec: slot of the secure-boot CMAC key. -/
def WOLFHSM_SHE_BOOT_MAC_KEY_ID : Nat := 0x2

/-- Modelled from the spec: slot of the expected secure-boot digest. -/
def WOLFHSM_SHE_BOOT_MAC : Nat := 0x3

/-- Modelled from the spec: the RAM key slot number. -/
def WOLFHSM_SHE_RAM_KEY_ID : Nat := 0xE

/-- Modelled from the spec: the PRNG seed slot number. -/
def WOLFHSM_SHE_PRNG_SEED_ID : Nat := 0xF

/-- Modelled from the spec: the write-protection flag bit in SHE key
metadata (section 3). -/
def WOLFHSM_SHE_FLAG_WRITE_PROTECT : Nat := 0x80

/-- Modelled from the spec: the wildcard flag bit in SHE key metadata. -/
def WOLFHSM_SHE_FLAG_WILDCARD : Nat := 0x01

/-- Modelled from the spec: SREG bit reported when a BOOT_MAC_KEY was found
at SB_INIT. -/
def WOLFHSM_SHE_SREG_SECURE_BOOT : Nat := 0x2

/-- Modelled from the spec: SREG bit for a finished (successful or failed)
secure boot. -/
def WOLFHSM_SHE_SREG_BOOT_FINISHED : Nat := 0x8

/-- Modelled from the spec: SREG bit for a successful secure boot. -/
def WOLFHSM_SHE_SREG_BOOT_OK : Nat := 0x10

/-- Modelled from the spec: SREG bit reporting PRNG initialization. -/
def WOLFHSM_SHE_SREG_RND_INIT : Nat := 0x20

def WOLFHSM_SHE_UID_SZ : Nat := 15

def WOLFHSM_SHE_KEY_SZ : Nat := 16

def WOLFHSM_SHE_BOOT_MAC_PREFIX_LEN : Nat := 12

/-! ## Result codes

`wh_she_common.h` / `wh_error.h` are not under `src/`; the dispatcher only
compares codes for equality, so the SHE error codes (specification section 7)
and the wolfHSM process-level codes are modelled as an inductive type.
`cmacCompareFailure` stands for the nonzero code the wolfCrypt CMAC verify
backend returns on a tag mismatch. -/

inductive SheRc where
  | ok
  | seqError
  | keyNotAvailable
  | keyInvalid
  | keyEmpty
  | noSecureBoot
  | writeProtected
  | keyUpdateError
  | rngSeed
  | noDebugging
  | busy
  | memoryFailure
  | generalError
  | badArgs
  | cmacCompareFailure
deriving DecidableEq, Repr

/-- The secure-boot state machine states, `enum WOLFHSM_SHE_SB_STATE`. -/
inductive SheSbState where
  | sbInit
  | sbUpdate
  | sbFinish
  | sbSuccess
  | sbFailure
deriving DecidableEq, Repr

/-- The SHE command codes dispatched by `wh_Server_HandleSheRequest`; the
`invalid` constructor stands for every action value the switch does not
recognize (its `default` case). -/
inductive SheAction where
  | setUid
  | secureBootInit
  | secureBootUpdate
  | secureBootFinish
  | getStatus
  | loadKey
  | loadPlainKey
  | exportRamKey
  | initRnd
  | rnd
  | extendSeed
  | encEcb
  | encCbc
  | decEcb
  | decCbc
  | genMac
  | verifyMac
  | invalid
deriving DecidableEq, Repr

/-- NVM object metadata.  In the C code the SHE flags and counter live in
`meta->label` reinterpreted as `whSheMetadata`; they are modelled as direct
fields. -/
structure WhNvmMetadata where
  id : Nat := 0
  len : Nat := 0
  flags : Nat := 0
  count : Nat := 0
deriving DecidableEq, Repr

/-- A stored key object: metadata plus key bytes. -/
structure WhKeyObject where
  meta : WhNvmMetadata
  key : List Nat
deriving DecidableEq, Repr

/-- Modelled from the spec: the key-store facade (section 4.2,
`wh_server_keystore.c`, not under `src/`).  NVM and the RAM key cache are
modelled as one finite map from SHE slot number to key object for the single
client of the session; `hsmReadKey` is lookup, and both `wh_Nvm_AddObject`
and `hsmCacheKey` are overwriting insertion (`whKeystorePut`). -/
abbrev SheKeystore := List (Nat × WhKeyObject)

/-- Modelled from the spec: key-store lookup by slot number (`hsmReadKey`). -/
def hsmReadKey : SheKeystore → Nat → Option WhKeyObject
  | [], _ => none
  | (i, o) :: rest, s => if i = s then some o else hsmReadKey rest s

/-- Modelled from the spec: overwriting insertion into the key store
(`wh_Nvm_AddObject` / `hsmCacheKey`). -/
def whKeystorePut (ks : SheKeystore) (slot : Nat) (obj : WhKeyObject) : SheKeystore :=
  (slot, obj) :: ks

/-- The per-session SHE state (`server->she`).  The streaming secure-boot
CMAC context (`sheCmac` between SB_INIT and SB_FINISH) is modelled
functionally as its key plus the bytes absorbed so far. -/
structure SheState where
  uid : List Nat := List.replicate 15 0
  uidSet : Bool := false
  sbState : SheSbState := .sbInit
  blSize : Nat := 0
  blSizeReceived : Nat := 0
  cmacKeyFound : Bool := false
  sbCmacKey : List Nat := []
  sbCmacMsg : List Nat := []
  rndInited : Bool := false
  prngState : List Nat := List.replicate 16 0
  prngKey : List Nat := List.replicate 16 0
  ramKeyPlain : Bool := false
deriving DecidableEq, Repr

/-- The zero-initialized session state at server startup. -/
def sheInitialState : SheState := {}

/-- The request packet, one structure standing for the `whPacket` union: each
handler reads only the fields of its own request layout. -/
structure SheRequest where
  uid : List Nat := []
  sbInitSz : Nat := 0
  sbUpdateSz : Nat := 0
  sbUpdateData : List Nat := []
  messageOne : List Nat := []
  messageTwo : List Nat := []
  messageThree : List Nat := []
  plainKey : List Nat := []
  entropy : List Nat := []
  sz : Nat := 0
  keyId : Nat := 0
  iv : List Nat := []
  inData : List Nat := []
  messageLen : Nat := 0
  macLen : Nat := 0
  macData : List Nat := []
deriving DecidableEq, Repr

/-- The command-specific part of the reply that the handler made part of the
sized response (`*size`).  `.stub` is a reply that carries only the `rc`
field. -/
inductive ShePacketBody where
  | stub
  | status (rc : SheRc)
  | sreg (v : Nat)
  | rndOut (bytes : List Nat)
  | mac (bytes : List Nat)
  | verify (status : Nat)
  | loadKey (messageFour messageFive : List Nat)
  | exportRamKey (m1 m2 m3 m4 m5 : List Nat)
  | data (sz : Nat) (out : List Nat)
deriving DecidableEq, Repr

/-- What a handler produces: its return code, the response fields it wrote,
and the updated session state and key store. -/
structure WhHandlerOut where
  ret : SheRc
  body : ShePacketBody
  st : SheState
  ks : SheKeystore
deriving DecidableEq, Repr

/-- What one call of the dispatcher produces: the reply (`rc` plus the fields
covered by the final `*size`) and the updated session state and key store. -/
structure WhDispatchOut where
  rc : SheRc
  body : ShePacketBody
  st : SheState
  ks : SheKeystore
deriving DecidableEq, Repr

/-! ## AES-MP (Miyaguchi-Preneel) KDF -/

/-- Fuel-indexed loop of `wh_AesMp16`: process the remaining input a 16-byte
block at a time, zero-padding a short final block, with `prev` both the AES
key for the block and the XOR chaining value (`messageZero` in the C code).
The fuel only bounds the number of iterations, keeping the recursion
structural so that proofs can evaluate it. -/
def mp16GoF (aes : List Nat → List Nat → List Nat) :
    Nat → List Nat → List Nat → List Nat
  | 0, prev, _ => prev
  | fuel + 1, prev, rem =>
    if rem = [] then prev
    else
      let block := if rem.length < 16 then rem ++ List.replicate (16 - rem.length) 0
                   else rem.take 16
      let out := xorB (xorB (aes prev block) block) prev
      mp16GoF aes fuel out (rem.drop 16)

/-- The loop of `wh_AesMp16`, run with enough fuel for the whole input. -/
def mp16Go (aes : List Nat → List Nat → List Nat) (prev rem : List Nat) : List Nat :=
  mp16GoF aes rem.length prev rem

/-- `wh_AesMp16` (lines 108-158): argument validation followed by the
Miyaguchi-Preneel loop.  The three booleans model NULL `server`, `in` and
`out` pointers; the input byte list carries its own length (`inSz`).  The
block cipher is a parameter, standing for the `wc_AesEncryptDirect` calls on
the server's AES context. -/
def wh_AesMp16 (serverNull inNull outNull : Bool)
    (aes : List Nat → List Nat → List Nat) (input : List Nat) :
    Except SheRc (List Nat) :=
  if serverNull ∨ inNull ∨ input.length = 0 ∨ outNull then .error .badArgs
  else .ok (mp16Go aes (List.replicate 16 0) input)

/-- The AES-MP KDF as the handlers call it (valid pointers, the modelled AES
backend). -/
def wh_AesMp16c (input : List Nat) : List Nat :=
  mp16Go wc_AesEncryptDirect (List.replicate 16 0) input

/-- The Miyaguchi-Preneel compression exactly as the specification words it
(section 4.1): pad the input with zeros to a multiple of 16 bytes, then for
each 16-byte block M set H to AES-Encrypt(key = H, M) XOR M XOR H, starting
from the all-zero chaining value. -/
def sheMp16MiyaguchiPreneel (aes : List Nat → List Nat → List Nat)
    (input : List Nat) : List Nat :=
  let padded := input ++ List.replicate ((16 - input.length % 16) % 16) 0
  (chunk16 padded).foldl (fun H M => xorB (xorB (aes H M) M) H)
    (List.replicate 16 0)

/-! ## Field extraction helpers (lines 160-177) -/

/-- `hsmShePopAuthId`: the 4 rightmost bits of M1's last byte. -/
def hsmShePopAuthId (messageOne : List Nat) : Nat :=
  messageOne.getD 15 0 &&& 0x0f

/-- `hsmShePopId`: bits 4-7 of M1's last byte. -/
def hsmShePopId (messageOne : List Nat) : Nat :=
  (messageOne.getD 15 0 &&& 0xf0) >>> 4

/-- `hsmShePopFlags`: the low nibble of M2 byte 3 and the top bit of M2
byte 4. -/
def hsmShePopFlags (messageTwo : List Nat) : Nat :=
  ((messageTwo.getD 3 0 &&& 0x0f) <<< 4) ||| ((messageTwo.getD 4 0 &&& 0x80) >>> 7)

/-- Modelled from the spec: `wh_Utils_memeqzero` (`wh_utils`, not under
`src/`): whether the first `n` bytes are all zero. -/
def wh_Utils_memeqzero (l : List Nat) (n : Nat) : Bool :=
  (l.take n).all (· == 0)

/-- Modelled from the spec: `wh_Utils_ntohl` (`wh_utils`, not under `src/`).
The specification (section 6) fixes counters as network-byte-order values and
the 32-bit views of message buffers are modelled big-endian accordingly, so
network-to-host conversion is the identity. -/
def wh_Utils_ntohl (x : Nat) : Nat := x

/-- Modelled from the spec: `wh_Utils_htonl`, the identity likewise. -/
def wh_Utils_htonl (x : Nat) : Nat := x

/-- The all-zero IV used by every CBC invocation with `iv = NULL`. -/
def zeroIv16 : List Nat := List.replicate 16 0

/-! ## Handlers -/

/-- `hsmSheSetUid` (lines 179-190). -/
def hsmSheSetUid (st : SheState) (ks : SheKeystore) (req : SheRequest) :
    WhHandlerOut :=
  if st.uidSet then ⟨.seqError, .stub, st, ks⟩
  else ⟨.ok, .stub, { st with uid := req.uid.take 15, uidSet := true }, ks⟩

/-- `hsmSheSecureBootInit` (lines 192-246).  The expected size is recorded
before the BOOT_MAC_KEY lookup; a missing key skips secure boot with
`NO_SECURE_BOOT`.  Otherwise the streaming CMAC is opened over the key and
absorbs 12 zero bytes followed by the 4 size bytes. -/
def hsmSheSecureBootInit (st : SheState) (ks : SheKeystore) (req : SheRequest) :
    WhHandlerOut :=
  if st.sbState ≠ .sbInit then ⟨.seqError, .stub, st, ks⟩
  else
    let st1 := { st with blSize := u32 req.sbInitSz }
    match hsmReadKey ks WOLFHSM_SHE_BOOT_MAC_KEY_ID with
    | none =>
      ⟨.noSecureBoot, .stub,
        { st1 with sbState := .sbSuccess, cmacKeyFound := false }, ks⟩
    | some macKey =>
      ⟨.ok, .status .ok,
        { st1 with
          cmacKeyFound := true,
          sbCmacKey := macKey.key.take WOLFHSM_SHE_KEY_SZ,
          sbCmacMsg := List.replicate WOLFHSM_SHE_BOOT_MAC_PREFIX_LEN 0 ++
            toBytesBE 4 (u32 req.sbInitSz),
          sbState := .sbUpdate }, ks⟩

/-- `hsmSheSecureBootUpdate` (lines 248-278).  `blSizeReceived` is
incremented (32-bit) before the bound check; the over-read error leaves the
incremented counter for the dispatcher's reset to clear. -/
def hsmSheSecureBootUpdate (st : SheState) (ks : SheKeystore) (req : SheRequest) :
    WhHandlerOut :=
  if st.sbState ≠ .sbUpdate then ⟨.seqError, .stub, st, ks⟩
  else
    let recvd := u32 (st.blSizeReceived + u32 req.sbUpdateSz)
    let st1 := { st with blSizeReceived := recvd }
    if recvd > st.blSize then ⟨.seqError, .stub, st1, ks⟩
    else
      let st2 := { st1 with
        sbCmacMsg := st1.sbCmacMsg ++ req.sbUpdateData.take (u32 req.sbUpdateSz) }
      if recvd = st.blSize then
        ⟨.ok, .status .ok, { st2 with sbState := .sbFinish }, ks⟩
      else ⟨.ok, .status .ok, st2, ks⟩

/-- `hsmSheSecureBootFinish` (lines 280-320): finalize the streaming CMAC,
read the stored BOOT_MAC digest and compare 16 bytes. -/
def hsmSheSecureBootFinish (st : SheState) (ks : SheKeystore) (_req : SheRequest) :
    WhHandlerOut :=
  if st.sbState ≠ .sbFinish then ⟨.seqError, .stub, st, ks⟩
  else
    let cmacOutput := wc_AesCmacGenerate st.sbCmacKey st.sbCmacMsg
    match hsmReadKey ks WOLFHSM_SHE_BOOT_MAC with
    | none => ⟨.keyNotAvailable, .stub, st, ks⟩
    | some macDigest =>
      if cmacOutput = macDigest.key.take 16 then
        ⟨.ok, .status .ok, { st with sbState := .sbSuccess }, ks⟩
      else ⟨.generalError, .stub, { st with sbState := .sbFailure }, ks⟩

/-- `hsmSheGetStatus` (lines 322-343): build the SREG byte. -/
def hsmSheGetStatus (st : SheState) (ks : SheKeystore) (_req : SheRequest) :
    WhHandlerOut :=
  let sreg :=
    (if st.cmacKeyFound then WOLFHSM_SHE_SREG_SECURE_BOOT else 0) |||
    (if st.sbState = .sbSuccess ∨ st.sbState = .sbFailure
      then WOLFHSM_SHE_SREG_BOOT_FINISHED else 0) |||
    (if st.sbState = .sbSuccess then WOLFHSM_SHE_SREG_BOOT_OK else 0) |||
    (if st.rndInited then WOLFHSM_SHE_SREG_RND_INIT else 0)
  ⟨.ok, .sreg sreg, st, ks⟩

/-- The cleartext of M2: `AES-CBC-Decrypt(K1, IV = 0, M2)` with
`K1 = AES-MP(authKey | KEY_UPDATE_ENC_C)` (lines 390-411). -/
def sheLoadKeyPlainM2 (authKey messageTwo : List Nat) : List Nat :=
  wc_AesCbcDecrypt (wh_AesMp16c (authKey ++ WOLFHSM_SHE_KEY_UPDATE_ENC_C))
    zeroIv16 messageTwo

/-- The presented counter: the decrypted M2's first 32-bit word shifted right
by 4, i.e. the top 28 bits (lines 443-446). -/
def sheM2Counter (plainM2 : List Nat) : Nat :=
  ofBytesBE (plainM2.take 4) >>> 4

/-- The new key delivered in M2: its bytes 16..31 (lines 460-461). -/
def sheLoadKeyNewKey (plainM2 : List Nat) : List Nat :=
  (plainM2.drop 16).take 16

/-- Final phase of `hsmSheLoadKey` (lines 477-531): given the effective
stored counter (re-read from NVM for persistent slots), derive K3 and K4 from
the new key, build the encrypted counter block and M4/M5. -/
def hsmSheLoadKeyM4 (st : SheState) (ks1 : SheKeystore)
    (messageOne plainM2 : List Nat) (storedCount : Nat) : WhHandlerOut :=
  let newKey := sheLoadKeyNewKey plainM2
  let k3 := wh_AesMp16c (newKey ++ WOLFHSM_SHE_KEY_UPDATE_ENC_C)
  let c0 := toBytesBE 4 (u32 (storedCount <<< 4))
  let c1 := c0.set 3 (c0.getD 3 0 ||| 0x08)
  let encBlock := wc_AesEncryptDirect k3 (c1 ++ (plainM2.drop 4).take 12)
  let messageFour := st.uid.take 15 ++ [messageOne.getD 15 0] ++ encBlock
  let k4 := wh_AesMp16c (newKey ++ WOLFHSM_SHE_KEY_UPDATE_MAC_C)
  let messageFive := wc_AesCmacGenerate k4 messageFour
  let st1 := if hsmShePopId messageOne = WOLFHSM_SHE_RAM_KEY_ID
    then { st with ramKeyPlain := true } else st
  ⟨.ok, .loadKey messageFour messageFive, st1, ks1⟩

/-- Counter check and key write of `hsmSheLoadKey` (lines 442-476), shared
by the wildcard and matching-UID paths: reject a presented counter that does
not strictly exceed the stored one (the comparison is skipped when the slot
was absent), then cache (RAM slot) or persist-and-re-read (NVM slot) the new
key with the presented counter and flags. -/
def hsmSheLoadKeyWriteCont (st : SheState) (ks : SheKeystore)
    (messageOne plainM2 : List Nat) (found : Option WhNvmMetadata) :
    WhHandlerOut :=
  let sheMeta := found.getD {}
  let w := ofBytesBE (plainM2.take 4)
  if found.isSome ∧ wh_Utils_ntohl (w >>> 4) ≤ wh_Utils_ntohl sheMeta.count then
    ⟨.keyUpdateError, .stub, st, ks⟩
  else
    let newMeta : WhNvmMetadata :=
      { id := hsmShePopId messageOne,
        len := WOLFHSM_SHE_KEY_SZ,
        flags := hsmShePopFlags plainM2,
        count := w >>> 4 }
    let newObj : WhKeyObject := ⟨newMeta, sheLoadKeyNewKey plainM2⟩
    if newMeta.id = WOLFHSM_SHE_RAM_KEY_ID then
      let ks1 := whKeystorePut ks newMeta.id newObj
      hsmSheLoadKeyM4 st ks1 messageOne plainM2 newMeta.count
    else
      let ks1 := whKeystorePut ks newMeta.id newObj
      match hsmReadKey ks1 newMeta.id with
      | none => ⟨.keyUpdateError, .stub, st, ks1⟩
      | some evicted =>
        hsmSheLoadKeyM4 st ks1 messageOne plainM2 evicted.meta.count

/-- Middle phase of `hsmSheLoadKey` (lines 429-476): the UID / wildcard
check, then the counter-rollback check and the key write.  `found` carries
the metadata of the existing target slot; when the slot was absent
(`keyRet == WH_ERROR_NOTFOUND`) the zero-initialized `meta` is used and the
counter comparison is skipped. -/
def hsmSheLoadKeyWrite (st : SheState) (ks : SheKeystore)
    (messageOne plainM2 : List Nat) (found : Option WhNvmMetadata) :
    WhHandlerOut :=
  let sheMeta := found.getD {}
  if wh_Utils_memeqzero messageOne WOLFHSM_SHE_UID_SZ then
    if sheMeta.flags &&& WOLFHSM_SHE_FLAG_WILDCARD = 0 then
      ⟨.keyUpdateError, .stub, st, ks⟩
    else hsmSheLoadKeyWriteCont st ks messageOne plainM2 found
  else if messageOne.take 15 ≠ st.uid.take 15 then
    ⟨.keyUpdateError, .stub, st, ks⟩
  else hsmSheLoadKeyWriteCont st ks messageOne plainM2 found

/-- `hsmSheLoadKey` (lines 345-533): read the authorization key, verify M3
with K2, decrypt M2 with K1, then check write protection and hand over to the
UID/counter/write phase. -/
def hsmSheLoadKey (st : SheState) (ks : SheKeystore) (req : SheRequest) :
    WhHandlerOut :=
  match hsmReadKey ks (hsmShePopAuthId req.messageOne) with
  | none => ⟨.keyNotAvailable, .stub, st, ks⟩
  | some auth =>
    let k2 := wh_AesMp16c (auth.key ++ WOLFHSM_SHE_KEY_UPDATE_MAC_C)
    let cmacOutput := wc_AesCmacGenerate k2 (req.messageOne ++ req.messageTwo)
    if req.messageThree ≠ cmacOutput then ⟨.keyUpdateError, .stub, st, ks⟩
    else
      let plainM2 := sheLoadKeyPlainM2 auth.key req.messageTwo
      match hsmReadKey ks (hsmShePopId req.messageOne) with
      | none => hsmSheLoadKeyWrite st ks req.messageOne plainM2 none
      | some target =>
        if target.meta.flags &&& WOLFHSM_SHE_FLAG_WRITE_PROTECT = 0 then
          hsmSheLoadKeyWrite st ks req.messageOne plainM2 (some target.meta)
        else ⟨.writeProtected, .stub, st, ks⟩

/-- `hsmSheLoadPlainKey` (lines 535-550). -/
def hsmSheLoadPlainKey (st : SheState) (ks : SheKeystore) (req : SheRequest) :
    WhHandlerOut :=
  let meta : WhNvmMetadata :=
    { id := WOLFHSM_SHE_RAM_KEY_ID, len := WOLFHSM_SHE_KEY_SZ }
  let ks1 := whKeystorePut ks meta.id ⟨meta, req.plainKey.take 16⟩
  ⟨.ok, .stub, { st with ramKeyPlain := true }, ks1⟩

/-- `hsmSheExportRamKey` (lines 553-701). -/
def hsmSheExportRamKey (st : SheState) (ks : SheKeystore) (_req : SheRequest) :
    WhHandlerOut :=
  if st.ramKeyPlain = false then ⟨.keyInvalid, .stub, st, ks⟩
  else
    match hsmReadKey ks WOLFHSM_SHE_SECRET_KEY_ID with
    | none => ⟨.keyNotAvailable, .stub, st, ks⟩
    | some sk =>
      let m1 := st.uid.take 15 ++
        [(WOLFHSM_SHE_RAM_KEY_ID <<< 4) ||| WOLFHSM_SHE_SECRET_KEY_ID]
      let k1 := wh_AesMp16c (sk.key ++ WOLFHSM_SHE_KEY_UPDATE_ENC_C)
      match hsmReadKey ks WOLFHSM_SHE_RAM_KEY_ID with
      | none => ⟨.keyNotAvailable, .stub, st, ks⟩
      | some rk =>
        let m2clear := toBytesBE 4 (wh_Utils_htonl 1 <<< 4) ++
          List.replicate 12 0 ++ rk.key.take 16
        let m2 := wc_AesCbcEncrypt k1 zeroIv16 m2clear
        let k2 := wh_AesMp16c (sk.key ++ WOLFHSM_SHE_KEY_UPDATE_MAC_C)
        let m3 := wc_AesCmacGenerate k2 (m1 ++ m2)
        let k3 := wh_AesMp16c (rk.key.take 16 ++ WOLFHSM_SHE_KEY_UPDATE_ENC_C)
        let c0 := toBytesBE 4 (wh_Utils_htonl 1 <<< 4)
        let c1 := c0.set 3 (c0.getD 3 0 ||| 0x08)
        let m4 := st.uid.take 15 ++
          [(WOLFHSM_SHE_RAM_KEY_ID <<< 4) ||| WOLFHSM_SHE_SECRET_KEY_ID] ++
          wc_AesEncryptDirect k3 (c1 ++ List.replicate 12 0)
        let k4 := wh_AesMp16c (rk.key.take 16 ++ WOLFHSM_SHE_KEY_UPDATE_MAC_C)
        let m5 := wc_AesCmacGenerate k4 m4
        ⟨.ok, .exportRamKey m1 m2 m3 m4 m5, st, ks⟩

/-- `hsmSheInitRnd` (lines 703-783). -/
def hsmSheInitRnd (st : SheState) (ks : SheKeystore) (_req : SheRequest) :
    WhHandlerOut :=
  if st.rndInited then ⟨.seqError, .stub, st, ks⟩
  else
    match hsmReadKey ks WOLFHSM_SHE_SECRET_KEY_ID with
    | none => ⟨.keyNotAvailable, .stub, st, ks⟩
    | some sk =>
      let prngSeedKey := wh_AesMp16c (sk.key ++ WOLFHSM_SHE_PRNG_SEED_KEY_C)
      match hsmReadKey ks WOLFHSM_SHE_PRNG_SEED_ID with
      | none => ⟨.keyNotAvailable, .stub, st, ks⟩
      | some seed =>
        let newSeed := wc_AesCbcEncrypt prngSeedKey zeroIv16 (seed.key.take 16)
        let meta : WhNvmMetadata :=
          { id := WOLFHSM_SHE_PRNG_SEED_ID, len := WOLFHSM_SHE_KEY_SZ }
        let ks1 := whKeystorePut ks meta.id ⟨meta, newSeed⟩
        let prngKey := wh_AesMp16c (sk.key ++ WOLFHSM_SHE_PRNG_KEY_C)
        ⟨.ok, .status .ok,
          { st with prngState := newSeed, prngKey := prngKey, rndInited := true },
          ks1⟩

/-- `hsmSheRnd` (lines 786-814). -/
def hsmSheRnd (st : SheState) (ks : SheKeystore) (_req : SheRequest) :
    WhHandlerOut :=
  if st.rndInited = false then ⟨.rngSeed, .stub, st, ks⟩
  else
    let newState := wc_AesCbcEncrypt st.prngKey zeroIv16 (st.prngState.take 16)
    ⟨.ok, .rndOut newState, { st with prngState := newState }, ks⟩

/-- `hsmSheExtendSeed` (lines 816-868).  The PRNG state is extended before
the stored seed is read, so a missing PRNG_SEED leaves the state already
rotated. -/
def hsmSheExtendSeed (st : SheState) (ks : SheKeystore) (req : SheRequest) :
    WhHandlerOut :=
  if st.rndInited = false then ⟨.rngSeed, .stub, st, ks⟩
  else
    let entropy := req.entropy.take 16
    let newState := wh_AesMp16c (st.prngState.take 16 ++ entropy)
    let st1 := { st with prngState := newState }
    match hsmReadKey ks WOLFHSM_SHE_PRNG_SEED_ID with
    | none => ⟨.keyNotAvailable, .stub, st1, ks⟩
    | some seed =>
      let newSeed := wh_AesMp16c (seed.key.take 16 ++ entropy)
      let meta : WhNvmMetadata :=
        { id := WOLFHSM_SHE_PRNG_SEED_ID, len := WOLFHSM_SHE_KEY_SZ }
      let ks1 := whKeystorePut ks meta.id ⟨meta, newSeed⟩
      ⟨.ok, .status .ok, st1, ks1⟩

/-- `hsmSheEncEcb` (lines 870-905): the length is silently truncated to a
multiple of the block size. -/
def hsmSheEncEcb (st : SheState) (ks : SheKeystore) (req : SheRequest) :
    WhHandlerOut :=
  let field := req.sz - req.sz % 16
  match hsmReadKey ks req.keyId with
  | none => ⟨.keyNotAvailable, .stub, st, ks⟩
  | some k =>
    ⟨.ok, .data field (wc_AesEcbEncrypt (k.key.take 16) (req.inData.take field)),
      st, ks⟩

/-- `hsmSheEncCbc` (lines 907-944). -/
def hsmSheEncCbc (st : SheState) (ks : SheKeystore) (req : SheRequest) :
    WhHandlerOut :=
  let field := req.sz - req.sz % 16
  match hsmReadKey ks req.keyId with
  | none => ⟨.keyNotAvailable, .stub, st, ks⟩
  | some k =>
    ⟨.ok, .data field
      (wc_AesCbcEncrypt (k.key.take 16) (req.iv.take 16) (req.inData.take field)),
      st, ks⟩

/-- `hsmSheDecEcb` (lines 946-981). -/
def hsmSheDecEcb (st : SheState) (ks : SheKeystore) (req : SheRequest) :
    WhHandlerOut :=
  let field := req.sz - req.sz % 16
  match hsmReadKey ks req.keyId with
  | none => ⟨.keyNotAvailable, .stub, st, ks⟩
  | some k =>
    ⟨.ok, .data field (wc_AesEcbDecrypt (k.key.take 16) (req.inData.take field)),
      st, ks⟩

/-- `hsmSheDecCbc` (lines 983-1020). -/
def hsmSheDecCbc (st : SheState) (ks : SheKeystore) (req : SheRequest) :
    WhHandlerOut :=
  let field := req.sz - req.sz % 16
  match hsmReadKey ks req.keyId with
  | none => ⟨.keyNotAvailable, .stub, st, ks⟩
  | some k =>
    ⟨.ok, .data field
      (wc_AesCbcDecrypt (k.key.take 16) (req.iv.take 16) (req.inData.take field)),
      st, ks⟩

/-- `hsmSheGenerateMac` (lines 1022-1048). -/
def hsmSheGenerateMac (st : SheState) (ks : SheKeystore) (req : SheRequest) :
    WhHandlerOut :=
  match hsmReadKey ks req.keyId with
  | none => ⟨.keyNotAvailable, .stub, st, ks⟩
  | some k =>
    ⟨.ok, .mac (wc_AesCmacGenerate (k.key.take 16) (req.inData.take req.sz)),
      st, ks⟩

/-- `hsmSheVerifyMac` (lines 1050-1081): the handler records the boolean
status in the response fields, but on a mismatch it returns the backend's
nonzero compare code unchanged. -/
def hsmSheVerifyMac (st : SheState) (ks : SheKeystore) (req : SheRequest) :
    WhHandlerOut :=
  match hsmReadKey ks req.keyId with
  | none => ⟨.keyNotAvailable, .stub, st, ks⟩
  | some k =>
    let message := req.inData.take req.messageLen
    let computed := wc_AesCmacGenerate (k.key.take 16) message
    if wc_AesCmacVerifyRc (req.macData.take req.macLen) (computed.take req.macLen)
    then ⟨.ok, .verify 0, st, ks⟩
    else ⟨.cmacCompareFailure, .verify 1, st, ks⟩

/-! ## Dispatcher -/

/-- The `switch (action)` of `wh_Server_HandleSheRequest` (lines 1106-1162),
with `invalid` as the `default` case. -/
def sheActionSwitch (st : SheState) (ks : SheKeystore) (action : SheAction)
    (req : SheRequest) : WhHandlerOut :=
  match action with
  | .setUid => hsmSheSetUid st ks req
  | .secureBootInit => hsmSheSecureBootInit st ks req
  | .secureBootUpdate => hsmSheSecureBootUpdate st ks req
  | .secureBootFinish => hsmSheSecureBootFinish st ks req
  | .getStatus => hsmSheGetStatus st ks req
  | .loadKey => hsmSheLoadKey st ks req
  | .loadPlainKey => hsmSheLoadPlainKey st ks req
  | .exportRamKey => hsmSheExportRamKey st ks req
  | .initRnd => hsmSheInitRnd st ks req
  | .rnd => hsmSheRnd st ks req
  | .extendSeed => hsmSheExtendSeed st ks req
  | .encEcb => hsmSheEncEcb st ks req
  | .encCbc => hsmSheEncCbc st ks req
  | .decEcb => hsmSheDecEcb st ks req
  | .decCbc => hsmSheDecCbc st ks req
  | .genMac => hsmSheGenerateMac st ks req
  | .verifyMac => hsmSheVerifyMac st ks req
  | .invalid => ⟨.badArgs, .stub, st, ks⟩

/-- Whether a return code is in the SHE-standard set that the dispatcher
passes through uncoerced (the `!=` chain of lines 1165-1170). -/
def sheIsStdErc : SheRc → Bool
  | .seqError | .keyNotAvailable | .keyInvalid | .keyEmpty | .noSecureBoot
  | .writeProtected | .keyUpdateError | .rngSeed | .noDebugging | .busy
  | .memoryFailure => true
  | _ => false

/-- The error coercion of lines 1163-1172: a nonzero handler code outside the
SHE-standard set becomes `GENERAL_ERROR`. -/
def sheCoerceRc (r : SheRc) : SheRc :=
  if r ≠ .ok ∧ sheIsStdErc r = false then .generalError else r

/-- The body of `wh_Server_HandleSheRequest` after the NULL checks (lines
1092-1188): session gating, the handler switch, error coercion with the
reply truncated to the stub on any error, and the secure-boot FSM reset on SB
errors other than `NO_SECURE_BOOT`. -/
def wh_Server_HandleSheRequestCore (st : SheState) (ks : SheKeystore)
    (action : SheAction) (req : SheRequest) : WhDispatchOut :=
  if (st.sbState ≠ .sbSuccess ∧
        action ≠ .secureBootInit ∧ action ≠ .secureBootUpdate ∧
        action ≠ .secureBootFinish ∧ action ≠ .getStatus ∧
        action ≠ .setUid) ∨
      (action ≠ .setUid ∧ st.uidSet = false) then
    ⟨.seqError, .stub, st, ks⟩
  else
    let h := sheActionSwitch st ks action req
    let ret := sheCoerceRc h.ret
    let body := if ret = .ok then h.body else .stub
    let st1 :=
      if (action = .secureBootInit ∨ action = .secureBootUpdate ∨
          action = .secureBootFinish) ∧ ret ≠ .ok ∧ ret ≠ .noSecureBoot then
        { h.st with
          sbState := .sbInit
          blSize := 0
          blSizeReceived := 0
          cmacKeyFound := false }
      else h.st
    ⟨ret, body, st1, h.ks⟩

/-- `wh_Server_HandleSheRequest` (lines 1083-1189): a NULL `server`, `data`
or `size` argument returns `WH_ERROR_BADARGS` without writing any reply; in
every other case the dispatch succeeds and the reply carries the outcome. -/
def wh_Server_HandleSheRequest (server : Option (SheState × SheKeystore))
    (action : SheAction) (data : Option SheRequest) (size : Option Nat) :
    Except SheRc WhDispatchOut :=
  match server, data, size with
  | some (st, ks), some req, some _ =>
    .ok (wh_Server_HandleSheRequestCore st ks action req)
  | _, _, _ => .error .badArgs

/-- Run a sequence of commands against a session, threading the state and
key store through successive dispatches and discarding the replies. -/
def sheRun (st : SheState) (ks : SheKeystore) :
    List (SheAction × SheRequest) → SheState × SheKeystore
  | [] => (st, ks)
  | (a, r) :: rest =>
    let o := wh_Server_HandleSheRequestCore st ks a r
    sheRun o.st o.ks rest

/-! ## Helper lemmas -/

/-- The error coercion never turns an error into success or success into an
error. -/
theorem sheCoerceRc_eq_ok_iff (r : SheRc) : sheCoerceRc r = .ok ↔ r = .ok := by
  cases r <;> simp [sheCoerceRc, sheIsStdErc]

/-- Looking up the slot just written returns the written object. -/
theorem hsmReadKey_whKeystorePut (ks : SheKeystore) (slot : Nat)
    (obj : WhKeyObject) : hsmReadKey (whKeystorePut ks slot obj) slot = some obj := by
  simp [hsmReadKey, whKeystorePut]

/-- When a dispatch replies `NO_ERROR`, the gate passed, the handler returned
zero, and the dispatcher forwarded the handler's reply fields, state and key
store unchanged. -/
theorem wh_HandleSheRequestCore_ok_inv (st : SheState) (ks : SheKeystore)
    (action : SheAction) (req : SheRequest)
    (h : (wh_Server_HandleSheRequestCore st ks action req).rc = .ok) :
    (sheActionSwitch st ks action req).ret = .ok ∧
    wh_Server_HandleSheRequestCore st ks action req =
      ⟨.ok, (sheActionSwitch st ks action req).body,
        (sheActionSwitch st ks action req).st,
        (sheActionSwitch st ks action req).ks⟩ := by
  unfold wh_Server_HandleSheRequestCore at h ⊢
  split at h <;> rename_i hgate
  · simp at h
  · simp only at h
    have hret : (sheActionSwitch st ks action req).ret = .ok :=
      (sheCoerceRc_eq_ok_iff _).mp h
    refine ⟨hret, ?_⟩
    rw [if_neg hgate]
    simp [hret, sheCoerceRc]

/-! ## Claim C1 -/

/-- Claim C1: for every command and session, if the UID has not been set and
the command is not SET_UID, or if the UID is set but the secure-boot state is
not SUCCESS and the command is not one of SET_UID, SB_INIT, SB_UPDATE,
SB_FINISH, GET_STATUS, then `wh_Server_HandleSheRequest` writes
`rc = SEQUENCE_ERROR` into the reply, dispatches no handler (the reply is the
bare stub), and leaves the session state and key store unchanged. -/
theorem she_gate_sequence_error (st : SheState) (ks : SheKeystore)
    (action : SheAction) (req : SheRequest)
    (h : (st.uidSet = false ∧ action ≠ .setUid) ∨
         (st.uidSet = true ∧ st.sbState ≠ .sbSuccess ∧
          action ≠ .setUid ∧ action ≠ .secureBootInit ∧
          action ≠ .secureBootUpdate ∧ action ≠ .secureBootFinish ∧
          action ≠ .getStatus)) :
    wh_Server_HandleSheRequestCore st ks action req = ⟨.seqError, .stub, st, ks⟩ := by
  unfold wh_Server_HandleSheRequestCore
  rw [if_pos]
  rcases h with ⟨h1, h2⟩ | ⟨_, h2, h3, h4, h5, h6, h7⟩
  · exact Or.inr ⟨h2, h1⟩
  · exact Or.inl ⟨h2, h4, h5, h6, h7, h3⟩

/-- Witness for C1 at a concrete input: a fresh session (UID unset) receiving
`RND` is refused with `SEQUENCE_ERROR` and left unchanged. -/
theorem she_gate_sequence_error_witness :
    sheInitialState.uidSet = false ∧
    wh_Server_HandleSheRequestCore sheInitialState [] .rnd {} =
      ⟨.seqError, .stub, sheInitialState, []⟩ :=
  ⟨rfl, she_gate_sequence_error sheInitialState [] .rnd {}
    (Or.inl ⟨rfl, by decide⟩)⟩

/-- A GET_STATUS dispatch on a session with the UID set always succeeds and
returns the SREG byte built from the session state, changing nothing. -/
theorem she_getStatus_spec (st : SheState) (ks : SheKeystore) (req : SheRequest)
    (huid : st.uidSet = true) :
    wh_Server_HandleSheRequestCore st ks .getStatus req =
      ⟨.ok, .sreg
        ((if st.cmacKeyFound then WOLFHSM_SHE_SREG_SECURE_BOOT else 0) |||
         (if st.sbState = .sbSuccess ∨ st.sbState = .sbFailure
           then WOLFHSM_SHE_SREG_BOOT_FINISHED else 0) |||
         (if st.sbState = .sbSuccess then WOLFHSM_SHE_SREG_BOOT_OK else 0) |||
         (if st.rndInited then WOLFHSM_SHE_SREG_RND_INIT else 0)), st, ks⟩ := by
  unfold wh_Server_HandleSheRequestCore
  rw [if_neg (by simp [huid])]
  simp [sheActionSwitch, hsmSheGetStatus, sheCoerceRc, sheIsStdErc]

/-! ## Claim C6 -/

/-- Claim C6: SB_INIT received in state INIT with no BOOT_MAC_KEY stored for
the client replies `rc = NO_SECURE_BOOT`, leaves the session with
`sb_state = SUCCESS` and `cmac_key_found = false` (no FSM reset: the recorded
`blSize` survives and the state is SUCCESS, not INIT), and a subsequent
GET_STATUS returns an SREG with the BOOT_OK and BOOT_FINISHED bits set and
the SECURE_BOOT bit clear. -/
theorem she_sb_init_no_secure_boot (st : SheState) (ks : SheKeystore)
    (req req2 : SheRequest)
    (huid : st.uidSet = true) (hsb : st.sbState = .sbInit)
    (hkey : hsmReadKey ks WOLFHSM_SHE_BOOT_MAC_KEY_ID = none) :
    (wh_Server_HandleSheRequestCore st ks .secureBootInit req).rc = .noSecureBoot ∧
    (wh_Server_HandleSheRequestCore st ks .secureBootInit req).st.sbState = .sbSuccess ∧
    (wh_Server_HandleSheRequestCore st ks .secureBootInit req).st.cmacKeyFound = false ∧
    (wh_Server_HandleSheRequestCore st ks .secureBootInit req).st.blSize = u32 req.sbInitSz ∧
    (wh_Server_HandleSheRequestCore st ks .secureBootInit req).ks = ks ∧
    (∃ sreg,
      (wh_Server_HandleSheRequestCore
        (wh_Server_HandleSheRequestCore st ks .secureBootInit req).st
        (wh_Server_HandleSheRequestCore st ks .secureBootInit req).ks
        .getStatus req2).rc = .ok ∧
      (wh_Server_HandleSheRequestCore
        (wh_Server_HandleSheRequestCore st ks .secureBootInit req).st
        (wh_Server_HandleSheRequestCore st ks .secureBootInit req).ks
        .getStatus req2).body = .sreg sreg ∧
      sreg &&& WOLFHSM_SHE_SREG_BOOT_OK ≠ 0 ∧
      sreg &&& WOLFHSM_SHE_SREG_BOOT_FINISHED ≠ 0 ∧
      sreg &&& WOLFHSM_SHE_SREG_SECURE_BOOT = 0) := by
  have hR : wh_Server_HandleSheRequestCore st ks .secureBootInit req =
      ⟨.noSecureBoot, .stub,
        { st with
          blSize := u32 req.sbInitSz
          sbState := .sbSuccess
          cmacKeyFound := false }, ks⟩ := by
    unfold wh_Server_HandleSheRequestCore
    rw [if_neg (by simp [huid])]
    simp only [sheActionSwitch]
    unfold hsmSheSecureBootInit
    rw [if_neg (by simp [hsb]), hkey]
    simp [sheCoerceRc, sheIsStdErc]
  rw [hR]
  refine ⟨rfl, rfl, rfl, rfl, rfl, ?_⟩
  rw [she_getStatus_spec _ _ _ (by simpa using huid)]
  dsimp only
  cases st.rndInited
  · exact ⟨24, rfl, by decide, by decide, by decide, by decide⟩
  · exact ⟨56, rfl, by decide, by decide, by decide, by decide⟩

/-- Witness for C6 at a concrete input: a fresh session with the UID set and
an empty key store. -/
theorem she_sb_init_no_secure_boot_witness :
    ({ sheInitialState with uidSet := true } : SheState).uidSet = true ∧
    ({ sheInitialState with uidSet := true } : SheState).sbState = .sbInit ∧
    hsmReadKey [] WOLFHSM_SHE_BOOT_MAC_KEY_ID = none ∧
    (wh_Server_HandleSheRequestCore { sheInitialState with uidSet := true } []
      .secureBootInit { sbInitSz := 256 }).rc = .noSecureBoot :=
  ⟨rfl, rfl, rfl,
    (she_sb_init_no_secure_boot { sheInitialState with uidSet := true } []
      { sbInitSz := 256 } {} rfl rfl rfl).1⟩

/-! ## Claim C9 -/

/-- Claim C9: for every dispatched command (the gate passed, so the handler
ran), if the handler's return code is nonzero and not one of the SHE-standard
codes SEQUENCE_ERROR, KEY_NOT_AVAILABLE, KEY_INVALID, KEY_EMPTY,
NO_SECURE_BOOT, WRITE_PROTECTED, KEY_UPDATE_ERROR, RNG_SEED, NO_DEBUGGING,
BUSY, MEMORY_FAILURE, then the rc written into the reply is GENERAL_ERROR and
`wh_Server_HandleSheRequest` itself returns success; and only a null server,
data, or size argument makes the dispatch return `WH_ERROR_BADARGS` without
writing a reply. -/
theorem she_dispatch_error_coercion :
    (∀ (st : SheState) (ks : SheKeystore) (action : SheAction)
       (req : SheRequest) (sz : Nat),
      ¬((st.sbState ≠ .sbSuccess ∧
          action ≠ .secureBootInit ∧ action ≠ .secureBootUpdate ∧
          action ≠ .secureBootFinish ∧ action ≠ .getStatus ∧
          action ≠ .setUid) ∨
        (action ≠ .setUid ∧ st.uidSet = false)) →
      (sheActionSwitch st ks action req).ret ≠ .ok →
      sheIsStdErc (sheActionSwitch st ks action req).ret = false →
      (wh_Server_HandleSheRequestCore st ks action req).rc = .generalError ∧
      wh_Server_HandleSheRequest (some (st, ks)) action (some req) (some sz) =
        .ok (wh_Server_HandleSheRequestCore st ks action req)) ∧
    (∀ (server : Option (SheState × SheKeystore)) (action : SheAction)
       (data : Option SheRequest) (size : Option Nat),
      server = none ∨ data = none ∨ size = none →
      wh_Server_HandleSheRequest server action data size = .error .badArgs) := by
  constructor
  · intro st ks action req sz hgate hret hstd
    refine ⟨?_, rfl⟩
    unfold wh_Server_HandleSheRequestCore
    rw [if_neg hgate]
    simp only [sheCoerceRc, hstd]
    rw [if_pos ⟨hret, trivial⟩]
  · intro server action data size h
    rcases h with h | h | h <;> subst h
    · rfl
    · cases server with
      | none => rfl
      | some p => cases size <;> rfl
    · cases server with
      | none => rfl
      | some p => cases data <;> rfl

/-- Witness for C9 at concrete inputs: an unrecognized action code on a
booted session is coerced to GENERAL_ERROR (its handler code is
`WH_ERROR_BADARGS`, not an SHE code), and a null data pointer returns
`WH_ERROR_BADARGS` with no reply. -/
theorem she_dispatch_error_coercion_witness :
    (wh_Server_HandleSheRequestCore
      { sheInitialState with uidSet := true, sbState := .sbSuccess } []
      .invalid {}).rc = .generalError ∧
    wh_Server_HandleSheRequest
      (some ({ sheInitialState with uidSet := true, sbState := .sbSuccess }, []))
      .invalid none (some 0) = .error .badArgs :=
  ⟨(she_dispatch_error_coercion.1
      { sheInitialState with uidSet := true, sbState := .sbSuccess } []
      .invalid {} 0 (by decide) (by decide) (by decide)).1,
   she_dispatch_error_coercion.2 _ .invalid none (some 0) (Or.inr (Or.inl rfl))⟩

/-! ## Claim C2 -/

/-- Counterexample to claim C2 as stated: at a concrete session in state
FINISH whose finalized CMAC differs from the stored BOOT_MAC, the dispatched
reply does carry `rc = GENERAL_ERROR`, but the session is NOT left with
`sb_state = FAILURE` (the dispatcher's secure-boot reset leaves it at INIT),
and the subsequent GET_STATUS does not report BOOT_FINISHED. -/
theorem she_sb_finish_failure_counterexample :
    (wh_Server_HandleSheRequestCore
      { uid := List.replicate 15 1, uidSet := true, sbState := .sbFinish,
        blSize := 16, blSizeReceived := 16, cmacKeyFound := true,
        sbCmacKey := List.replicate 16 0, sbCmacMsg := List.replicate 16 0 }
      [(3, ⟨⟨3, 16, 0, 0⟩, List.replicate 16 255⟩)]
      .secureBootFinish {}).rc = .generalError ∧
    (wh_Server_HandleSheRequestCore
      { uid := List.replicate 15 1, uidSet := true, sbState := .sbFinish,
        blSize := 16, blSizeReceived := 16, cmacKeyFound := true,
        sbCmacKey := List.replicate 16 0, sbCmacMsg := List.replicate 16 0 }
      [(3, ⟨⟨3, 16, 0, 0⟩, List.replicate 16 255⟩)]
      .secureBootFinish {}).st.sbState ≠ .sbFailure ∧
    (wh_Server_HandleSheRequestCore
      (wh_Server_HandleSheRequestCore
        { uid := List.replicate 15 1, uidSet := true, sbState := .sbFinish,
          blSize := 16, blSizeReceived := 16, cmacKeyFound := true,
          sbCmacKey := List.replicate 16 0, sbCmacMsg := List.replicate 16 0 }
        [(3, ⟨⟨3, 16, 0, 0⟩, List.replicate 16 255⟩)]
        .secureBootFinish {}).st
      (wh_Server_HandleSheRequestCore
        { uid := List.replicate 15 1, uidSet := true, sbState := .sbFinish,
          blSize := 16, blSizeReceived := 16, cmacKeyFound := true,
          sbCmacKey := List.replicate 16 0, sbCmacMsg := List.replicate 16 0 }
        [(3, ⟨⟨3, 16, 0, 0⟩, List.replicate 16 255⟩)]
        .secureBootFinish {}).ks
      .getStatus {}).body =
        .sreg ((0 : Nat) ||| 0 ||| 0 ||| 0) := by
  refine ⟨by decide, by decide, by decide⟩

/-- Claim C2 (amended): when SB_FINISH is processed in state FINISH and the
finalized CMAC is unequal to the stored BOOT_MAC, the reply carries
`rc = GENERAL_ERROR` and `hsmSheSecureBootFinish` itself sets
`sb_state = FAILURE`; but the dispatcher's secure-boot error reset then
returns the session to `sb_state = INIT` with `blSize`, `blSizeReceived` and
`cmacKeyFound` cleared, so FAILURE is not the resting state and a subsequent
GET_STATUS reports neither BOOT_FINISHED nor BOOT_OK. -/
theorem she_sb_finish_mismatch_resets (st : SheState) (ks : SheKeystore)
    (req req2 : SheRequest) (obj : WhKeyObject)
    (huid : st.uidSet = true) (hsb : st.sbState = .sbFinish)
    (hmac : hsmReadKey ks WOLFHSM_SHE_BOOT_MAC = some obj)
    (hne : wc_AesCmacGenerate st.sbCmacKey st.sbCmacMsg ≠ obj.key.take 16) :
    (hsmSheSecureBootFinish st ks req).ret = .generalError ∧
    (hsmSheSecureBootFinish st ks req).st.sbState = .sbFailure ∧
    (wh_Server_HandleSheRequestCore st ks .secureBootFinish req).rc = .generalError ∧
    (wh_Server_HandleSheRequestCore st ks .secureBootFinish req).st.sbState = .sbInit ∧
    (wh_Server_HandleSheRequestCore st ks .secureBootFinish req).st.blSize = 0 ∧
    (wh_Server_HandleSheRequestCore st ks .secureBootFinish req).st.blSizeReceived = 0 ∧
    (wh_Server_HandleSheRequestCore st ks .secureBootFinish req).st.cmacKeyFound = false ∧
    (∃ sreg,
      (wh_Server_HandleSheRequestCore
        (wh_Server_HandleSheRequestCore st ks .secureBootFinish req).st
        (wh_Server_HandleSheRequestCore st ks .secureBootFinish req).ks
        .getStatus req2).body = .sreg sreg ∧
      sreg &&& WOLFHSM_SHE_SREG_BOOT_FINISHED = 0 ∧
      sreg &&& WOLFHSM_SHE_SREG_BOOT_OK = 0) := by
  have hH : hsmSheSecureBootFinish st ks req =
      ⟨.generalError, .stub, { st with sbState := .sbFailure }, ks⟩ := by
    unfold hsmSheSecureBootFinish
    rw [if_neg (by simp [hsb]), hmac]
    simp only
    rw [if_neg hne]
  have hCore : wh_Server_HandleSheRequestCore st ks .secureBootFinish req =
      ⟨.generalError, .stub,
        { st with
          sbState := .sbInit
          blSize := 0
          blSizeReceived := 0
          cmacKeyFound := false }, ks⟩ := by
    unfold wh_Server_HandleSheRequestCore
    rw [if_neg (by simp [huid])]
    simp only [sheActionSwitch]
    rw [hH]
    simp [sheCoerceRc, sheIsStdErc]
  rw [hH, hCore]
  refine ⟨rfl, rfl, rfl, rfl, rfl, rfl, rfl, ?_⟩
  rw [she_getStatus_spec _ _ _ (by simpa using huid)]
  dsimp only
  cases st.rndInited
  · exact ⟨0, by decide, by decide, by decide⟩
  · exact ⟨32, by decide, by decide, by decide⟩

/-- Witness for the amended C2 at a concrete input. -/
theorem she_sb_finish_mismatch_resets_witness :
    hsmReadKey [(3, ⟨⟨3, 16, 0, 0⟩, List.replicate 16 255⟩)] WOLFHSM_SHE_BOOT_MAC =
      some ⟨⟨3, 16, 0, 0⟩, List.replicate 16 255⟩ ∧
    (wh_Server_HandleSheRequestCore
      { uid := List.replicate 15 1, uidSet := true, sbState := .sbFinish,
        blSize := 16, blSizeReceived := 16, cmacKeyFound := true,
        sbCmacKey := List.replicate 16 0, sbCmacMsg := List.replicate 16 0 }
      [(3, ⟨⟨3, 16, 0, 0⟩, List.replicate 16 255⟩)]
      .secureBootFinish {}).st.sbState = .sbInit :=
  ⟨by decide,
    (she_sb_finish_mismatch_resets
      { uid := List.replicate 15 1, uidSet := true, sbState := .sbFinish,
        blSize := 16, blSizeReceived := 16, cmacKeyFound := true,
        sbCmacKey := List.replicate 16 0, sbCmacMsg := List.replicate 16 0 }
      [(3, ⟨⟨3, 16, 0, 0⟩, List.replicate 16 255⟩)] {} {}
      ⟨⟨3, 16, 0, 0⟩, List.replicate 16 255⟩
      rfl rfl (by decide) (by decide)).2.2.2.1⟩

/-! ## Claim C7 -/

/-- The secure-boot progress invariant: the accumulated bootloader byte count
never exceeds the expected size, and in state INIT nothing has been
accumulated yet. -/
def sheSbInv (st : SheState) : Prop :=
  st.blSizeReceived ≤ st.blSize ∧ (st.sbState = .sbInit → st.blSizeReceived = 0)

/-- Handlers other than the three secure-boot ones never touch `blSize`,
`blSizeReceived` or `sbState`. -/
theorem sheActionSwitch_nonSb_frame (st : SheState) (ks : SheKeystore)
    (req : SheRequest) (action : SheAction)
    (h1 : action ≠ .secureBootInit) (h2 : action ≠ .secureBootUpdate)
    (h3 : action ≠ .secureBootFinish) :
    (sheActionSwitch st ks action req).st.blSize = st.blSize ∧
    (sheActionSwitch st ks action req).st.blSizeReceived = st.blSizeReceived ∧
    (sheActionSwitch st ks action req).st.sbState = st.sbState := by
  cases action
  case secureBootInit => exact absurd rfl h1
  case secureBootUpdate => exact absurd rfl h2
  case secureBootFinish => exact absurd rfl h3
  all_goals
    simp only [sheActionSwitch, hsmSheSetUid, hsmSheGetStatus, hsmSheLoadKey,
      hsmSheLoadKeyWrite, hsmSheLoadKeyWriteCont, hsmSheLoadKeyM4,
      hsmSheLoadPlainKey, hsmSheExportRamKey, hsmSheInitRnd, hsmSheRnd,
      hsmSheExtendSeed, hsmSheEncEcb, hsmSheEncCbc, hsmSheDecEcb,
      hsmSheDecCbc, hsmSheGenerateMac, hsmSheVerifyMac]
  all_goals repeat' split
  all_goals simp

/-- Shape of `hsmSheSecureBootInit` outside state INIT. -/
theorem hsmSheSecureBootInit_notInit (st : SheState) (ks : SheKeystore)
    (req : SheRequest) (h : st.sbState ≠ .sbInit) :
    hsmSheSecureBootInit st ks req = ⟨.seqError, .stub, st, ks⟩ := by
  unfold hsmSheSecureBootInit
  rw [if_pos (by simpa using h)]

/-- Shape of `hsmSheSecureBootInit` in state INIT without a BOOT_MAC_KEY. -/
theorem hsmSheSecureBootInit_noKey (st : SheState) (ks : SheKeystore)
    (req : SheRequest) (h : st.sbState = .sbInit)
    (hk : hsmReadKey ks WOLFHSM_SHE_BOOT_MAC_KEY_ID = none) :
    hsmSheSecureBootInit st ks req =
      ⟨.noSecureBoot, .stub,
        { st with
          blSize := u32 req.sbInitSz
          sbState := .sbSuccess
          cmacKeyFound := false }, ks⟩ := by
  unfold hsmSheSecureBootInit
  rw [if_neg (by simp [h]), hk]

/-- Shape of `hsmSheSecureBootInit` in state INIT with a BOOT_MAC_KEY. -/
theorem hsmSheSecureBootInit_key (st : SheState) (ks : SheKeystore)
    (req : SheRequest) (mk : WhKeyObject) (h : st.sbState = .sbInit)
    (hk : hsmReadKey ks WOLFHSM_SHE_BOOT_MAC_KEY_ID = some mk) :
    hsmSheSecureBootInit st ks req =
      ⟨.ok, .status .ok,
        { st with
          blSize := u32 req.sbInitSz
          cmacKeyFound := true
          sbCmacKey := mk.key.take WOLFHSM_SHE_KEY_SZ
          sbCmacMsg := List.replicate WOLFHSM_SHE_BOOT_MAC_PREFIX_LEN 0 ++
            toBytesBE 4 (u32 req.sbInitSz)
          sbState := .sbUpdate }, ks⟩ := by
  unfold hsmSheSecureBootInit
  rw [if_neg (by simp [h]), hk]

/-- Shape of `hsmSheSecureBootUpdate` outside state UPDATE. -/
theorem hsmSheSecureBootUpdate_notUpdate (st : SheState) (ks : SheKeystore)
    (req : SheRequest) (h : st.sbState ≠ .sbUpdate) :
    hsmSheSecureBootUpdate st ks req = ⟨.seqError, .stub, st, ks⟩ := by
  unfold hsmSheSecureBootUpdate
  rw [if_pos (by simpa using h)]

/-- Shape of `hsmSheSecureBootUpdate` on an over-long chunk: the incremented
counter is recorded and a sequence error returned. -/
theorem hsmSheSecureBootUpdate_overflow (st : SheState) (ks : SheKeystore)
    (req : SheRequest) (h : st.sbState = .sbUpdate)
    (hov : u32 (st.blSizeReceived + u32 req.sbUpdateSz) > st.blSize) :
    hsmSheSecureBootUpdate st ks req =
      ⟨.seqError, .stub,
        { st with blSizeReceived := u32 (st.blSizeReceived + u32 req.sbUpdateSz) },
        ks⟩ := by
  unfold hsmSheSecureBootUpdate
  rw [if_neg (by simp [h])]
  simp only
  rw [if_pos hov]

/-- Shape of `hsmSheSecureBootUpdate` on an in-bounds chunk. -/
theorem hsmSheSecureBootUpdate_inBounds (st : SheState) (ks : SheKeystore)
    (req : SheRequest) (h : st.sbState = .sbUpdate)
    (hov : ¬u32 (st.blSizeReceived + u32 req.sbUpdateSz) > st.blSize) :
    hsmSheSecureBootUpdate st ks req =
      ⟨.ok, .status .ok,
        { st with
          blSizeReceived := u32 (st.blSizeReceived + u32 req.sbUpdateSz)
          sbCmacMsg := st.sbCmacMsg ++ req.sbUpdateData.take (u32 req.sbUpdateSz)
          sbState := if u32 (st.blSizeReceived + u32 req.sbUpdateSz) = st.blSize
            then .sbFinish else st.sbState }, ks⟩ := by
  unfold hsmSheSecureBootUpdate
  rw [if_neg (by simp [h])]
  simp only
  rw [if_neg hov]
  split <;> rfl

/-- Shape of `hsmSheSecureBootFinish` outside state FINISH. -/
theorem hsmSheSecureBootFinish_notFinish (st : SheState) (ks : SheKeystore)
    (req : SheRequest) (h : st.sbState ≠ .sbFinish) :
    hsmSheSecureBootFinish st ks req = ⟨.seqError, .stub, st, ks⟩ := by
  unfold hsmSheSecureBootFinish
  rw [if_pos (by simpa using h)]

/-- Shape of `hsmSheSecureBootFinish` when BOOT_MAC is missing. -/
theorem hsmSheSecureBootFinish_noKey (st : SheState) (ks : SheKeystore)
    (req : SheRequest) (h : st.sbState = .sbFinish)
    (hk : hsmReadKey ks WOLFHSM_SHE_BOOT_MAC = none) :
    hsmSheSecureBootFinish st ks req = ⟨.keyNotAvailable, .stub, st, ks⟩ := by
  unfold hsmSheSecureBootFinish
  rw [if_neg (by simp [h]), hk]

/-- Shape of `hsmSheSecureBootFinish` on a matching digest. -/
theorem hsmSheSecureBootFinish_match (st : SheState) (ks : SheKeystore)
    (req : SheRequest) (d : WhKeyObject) (h : st.sbState = .sbFinish)
    (hk : hsmReadKey ks WOLFHSM_SHE_BOOT_MAC = some d)
    (hcm : wc_AesCmacGenerate st.sbCmacKey st.sbCmacMsg = d.key.take 16) :
    hsmSheSecureBootFinish st ks req =
      ⟨.ok, .status .ok, { st with sbState := .sbSuccess }, ks⟩ := by
  unfold hsmSheSecureBootFinish
  rw [if_neg (by simp [h]), hk]
  simp only
  rw [if_pos hcm]

/-- Shape of `hsmSheSecureBootFinish` on a digest mismatch. -/
theorem hsmSheSecureBootFinish_mismatch (st : SheState) (ks : SheKeystore)
    (req : SheRequest) (d : WhKeyObject) (h : st.sbState = .sbFinish)
    (hk : hsmReadKey ks WOLFHSM_SHE_BOOT_MAC = some d)
    (hcm : wc_AesCmacGenerate st.sbCmacKey st.sbCmacMsg ≠ d.key.take 16) :
    hsmSheSecureBootFinish st ks req =
      ⟨.generalError, .stub, { st with sbState := .sbFailure }, ks⟩ := by
  unfold hsmSheSecureBootFinish
  rw [if_neg (by simp [h]), hk]
  simp only
  rw [if_neg hcm]

/-- One dispatch preserves the secure-boot progress invariant. -/
theorem sheSbInv_core (st : SheState) (ks : SheKeystore) (a : SheAction)
    (req : SheRequest) (h : sheSbInv st) :
    sheSbInv (wh_Server_HandleSheRequestCore st ks a req).st := by
  unfold wh_Server_HandleSheRequestCore
  split
  · exact h
  · cases a
    case secureBootInit =>
      dsimp only [sheActionSwitch]
      by_cases hst : st.sbState = .sbInit
      · rcases hk : hsmReadKey ks WOLFHSM_SHE_BOOT_MAC_KEY_ID with _ | mk
        · rw [hsmSheSecureBootInit_noKey st ks req hst hk]
          rw [if_neg (by simp [sheCoerceRc, sheIsStdErc])]
          exact ⟨by simp [h.2 hst], by simp⟩
        · rw [hsmSheSecureBootInit_key st ks req mk hst hk]
          rw [if_neg (by simp [sheCoerceRc, sheIsStdErc])]
          exact ⟨by simp [h.2 hst], by simp⟩
      · rw [hsmSheSecureBootInit_notInit st ks req hst]
        rw [if_pos (by simp [sheCoerceRc, sheIsStdErc])]
        exact ⟨Nat.le_refl 0, fun _ => rfl⟩
    case secureBootUpdate =>
      dsimp only [sheActionSwitch]
      by_cases hst : st.sbState = .sbUpdate
      · by_cases hov : u32 (st.blSizeReceived + u32 req.sbUpdateSz) > st.blSize
        · rw [hsmSheSecureBootUpdate_overflow st ks req hst hov]
          rw [if_pos (by simp [sheCoerceRc, sheIsStdErc])]
          exact ⟨Nat.le_refl 0, fun _ => rfl⟩
        · rw [hsmSheSecureBootUpdate_inBounds st ks req hst hov]
          rw [if_neg (by simp [sheCoerceRc, sheIsStdErc])]
          refine ⟨by simpa using Nat.le_of_not_lt hov, ?_⟩
          dsimp only
          intro hc
          split at hc
          · simp at hc
          · rw [hst] at hc
            simp at hc
      · rw [hsmSheSecureBootUpdate_notUpdate st ks req hst]
        rw [if_pos (by simp [sheCoerceRc, sheIsStdErc])]
        exact ⟨Nat.le_refl 0, fun _ => rfl⟩
    case secureBootFinish =>
      dsimp only [sheActionSwitch]
      by_cases hst : st.sbState = .sbFinish
      · rcases hk : hsmReadKey ks WOLFHSM_SHE_BOOT_MAC with _ | d
        · rw [hsmSheSecureBootFinish_noKey st ks req hst hk]
          rw [if_pos (by simp [sheCoerceRc, sheIsStdErc])]
          exact ⟨Nat.le_refl 0, fun _ => rfl⟩
        · by_cases hcm : wc_AesCmacGenerate st.sbCmacKey st.sbCmacMsg =
              d.key.take 16
          · rw [hsmSheSecureBootFinish_match st ks req d hst hk hcm]
            rw [if_neg (by simp [sheCoerceRc, sheIsStdErc])]
            exact ⟨h.1, by simp⟩
          · rw [hsmSheSecureBootFinish_mismatch st ks req d hst hk hcm]
            rw [if_pos (by simp [sheCoerceRc, sheIsStdErc])]
            exact ⟨Nat.le_refl 0, fun _ => rfl⟩
      · rw [hsmSheSecureBootFinish_notFinish st ks req hst]
        rw [if_pos (by simp [sheCoerceRc, sheIsStdErc])]
        exact ⟨Nat.le_refl 0, fun _ => rfl⟩
    all_goals
      dsimp only
      rw [if_neg (by simp)]
      obtain ⟨hA, hB⟩ := h
      constructor <;>
        simp only [sheActionSwitch, hsmSheSetUid, hsmSheGetStatus, hsmSheLoadKey,
          hsmSheLoadKeyWrite, hsmSheLoadKeyWriteCont, hsmSheLoadKeyM4,
          hsmSheLoadPlainKey, hsmSheExportRamKey, hsmSheInitRnd, hsmSheRnd,
          hsmSheExtendSeed, hsmSheEncEcb, hsmSheEncCbc, hsmSheDecEcb,
          hsmSheDecCbc, hsmSheGenerateMac, hsmSheVerifyMac] <;>
        (repeat' split) <;> simp_all

/-- The secure-boot progress invariant is preserved along any command
sequence. -/
theorem sheRun_sbInv : ∀ (cmds : List (SheAction × SheRequest)) (st : SheState)
    (ks : SheKeystore), sheSbInv st → sheSbInv (sheRun st ks cmds).1
  | [], _, _, h => h
  | (a, r) :: rest, st, ks, h =>
    sheRun_sbInv rest _ _ (sheSbInv_core st ks a r h)

/-- Claim C7: for every command sequence run from the initial session state,
`bl_received` never exceeds `bl_size` once a dispatch completes; and an
SB_UPDATE whose accumulated (32-bit) chunk count would exceed `bl_size` on a
session with the UID set replies SEQUENCE_ERROR and resets the secure-boot
FSM to INIT with `blSize`, `blSizeReceived` and `cmacKeyFound` cleared. -/
theorem she_secure_boot_received_le_size :
    (∀ (cmds : List (SheAction × SheRequest)) (ks : SheKeystore),
      (sheRun sheInitialState ks cmds).1.blSizeReceived ≤
        (sheRun sheInitialState ks cmds).1.blSize) ∧
    (∀ (st : SheState) (ks : SheKeystore) (req : SheRequest),
      st.uidSet = true →
      u32 (st.blSizeReceived + u32 req.sbUpdateSz) > st.blSize →
      (wh_Server_HandleSheRequestCore st ks .secureBootUpdate req).rc = .seqError ∧
      (wh_Server_HandleSheRequestCore st ks .secureBootUpdate req).st.sbState = .sbInit ∧
      (wh_Server_HandleSheRequestCore st ks .secureBootUpdate req).st.blSize = 0 ∧
      (wh_Server_HandleSheRequestCore st ks .secureBootUpdate req).st.blSizeReceived = 0 ∧
      (wh_Server_HandleSheRequestCore st ks .secureBootUpdate req).st.cmacKeyFound = false) := by
  constructor
  · intro cmds ks
    exact (sheRun_sbInv cmds sheInitialState ks ⟨Nat.le_refl 0, fun _ => rfl⟩).1
  · intro st ks req huid hov
    unfold wh_Server_HandleSheRequestCore
    rw [if_neg (by simp [huid])]
    dsimp only [sheActionSwitch]
    by_cases hst : st.sbState = .sbUpdate
    · rw [hsmSheSecureBootUpdate_overflow st ks req hst hov]
      rw [if_pos (by simp [sheCoerceRc, sheIsStdErc])]
      exact ⟨by simp [sheCoerceRc, sheIsStdErc], rfl, rfl, rfl, rfl⟩
    · rw [hsmSheSecureBootUpdate_notUpdate st ks req hst]
      rw [if_pos (by simp [sheCoerceRc, sheIsStdErc])]
      exact ⟨by simp [sheCoerceRc, sheIsStdErc], rfl, rfl, rfl, rfl⟩

/-- Witness for C7 at concrete inputs: the invariant after a concrete command
sequence, and a concrete over-long SB_UPDATE being refused and reset. -/
theorem she_secure_boot_received_le_size_witness :
    (sheRun sheInitialState []
      [(.setUid, { uid := List.replicate 15 1 }),
       (.secureBootUpdate, { sbUpdateSz := 5 })]).1.blSizeReceived ≤
      (sheRun sheInitialState []
        [(.setUid, { uid := List.replicate 15 1 }),
         (.secureBootUpdate, { sbUpdateSz := 5 })]).1.blSize ∧
    ({ uidSet := true, sbState := .sbUpdate } : SheState).uidSet = true ∧
    u32 ((({ uidSet := true, sbState := .sbUpdate } : SheState)).blSizeReceived +
      u32 (({ sbUpdateSz := 5 } : SheRequest)).sbUpdateSz) >
      ({ uidSet := true, sbState := .sbUpdate } : SheState).blSize ∧
    (wh_Server_HandleSheRequestCore { uidSet := true, sbState := .sbUpdate } []
      .secureBootUpdate { sbUpdateSz := 5 }).rc = .seqError ∧
    (wh_Server_HandleSheRequestCore { uidSet := true, sbState := .sbUpdate } []
      .secureBootUpdate { sbUpdateSz := 5 }).st.sbState = .sbInit :=
  ⟨she_secure_boot_received_le_size.1 _ [],
   rfl, by decide,
   (she_secure_boot_received_le_size.2 { uidSet := true, sbState := .sbUpdate }
     [] { sbUpdateSz := 5 } rfl (by decide)).1,
   (she_secure_boot_received_le_size.2 { uidSet := true, sbState := .sbUpdate }
     [] { sbUpdateSz := 5 } rfl (by decide)).2.1⟩

/-! ## Claim C8 -/

/-- `chunk16F` does not depend on the fuel once the fuel covers the length. -/
theorem chunk16F_congr : ∀ (f g : Nat) (l : List Nat),
    l.length ≤ f → l.length ≤ g → chunk16F f l = chunk16F g l := by
  intro f
  induction f with
  | zero =>
    intro g l hf hg
    have hnil : l = [] := List.length_eq_zero.mp (Nat.le_zero.mp hf)
    subst hnil
    cases g <;> rfl
  | succ f ih =>
    intro g l hf hg
    by_cases hnil : l = []
    · subst hnil
      cases g <;> rfl
    · cases g with
      | zero => exact absurd (List.length_eq_zero.mp (Nat.le_zero.mp hg)) hnil
      | succ g =>
        simp only [chunk16F, if_neg hnil]
        congr 1
        exact ih g (l.drop 16) (by simp [List.length_drop]; omega)
          (by simp [List.length_drop]; omega)

/-- Unfolding lemma for `chunk16` on a non-empty buffer. -/
theorem chunk16_cons (l : List Nat) (h : l ≠ []) :
    chunk16 l = l.take 16 :: chunk16 (l.drop 16) := by
  unfold chunk16
  cases l with
  | nil => exact absurd rfl h
  | cons x xs =>
    simp only [List.length_cons, chunk16F, if_neg h]
    congr 1
    exact chunk16F_congr xs.length ((x :: xs).drop 16).length ((x :: xs).drop 16)
      (by simp [List.length_drop]) (le_refl _)

/-- The `wh_AesMp16` loop computes the block-wise Miyaguchi-Preneel fold over
the zero-padded input, for any block cipher, any starting chain value and any
sufficient fuel. -/
theorem mp16GoF_eq_chunks (aes : List Nat → List Nat → List Nat) :
    ∀ (n : Nat) (rem prev : List Nat), rem.length ≤ n →
    mp16GoF aes n prev rem =
      (chunk16 (rem ++ List.replicate ((16 - rem.length % 16) % 16) 0)).foldl
        (fun H M => xorB (xorB (aes H M) M) H) prev := by
  intro n
  induction n with
  | zero =>
    intro rem prev h
    have hnil : rem = [] := List.length_eq_zero.mp (Nat.le_zero.mp h)
    subst hnil
    simp [mp16GoF, chunk16, chunk16F]
  | succ n ih =>
    intro rem prev h
    by_cases hnil : rem = []
    · subst hnil
      simp [mp16GoF, chunk16, chunk16F]
    · have hpos : 0 < rem.length := List.length_pos.mpr hnil
      simp only [mp16GoF, if_neg hnil]
      by_cases hlen : rem.length < 16
      · rw [if_pos hlen]
        rw [ih (rem.drop 16) _ (by simp [List.length_drop]; omega)]
        have hdnil : rem.drop 16 = [] :=
          List.drop_eq_nil_of_le (by omega : rem.length ≤ 16)
        rw [hdnil]
        have hpad : (16 - rem.length % 16) % 16 = 16 - rem.length := by
          rw [Nat.mod_eq_of_lt hlen, Nat.mod_eq_of_lt (by omega)]
        rw [hpad]
        have hplen : (rem ++ List.replicate (16 - rem.length) 0).length = 16 := by
          simp
          omega
        rw [chunk16_cons _ (fun hc => hnil (List.append_eq_nil.mp hc).1)]
        rw [List.take_of_length_le (le_of_eq hplen)]
        rw [List.drop_eq_nil_of_le (le_of_eq hplen)]
        simp [chunk16, chunk16F]
      · rw [if_neg hlen]
        have h16 : 16 ≤ rem.length := Nat.le_of_not_lt hlen
        rw [ih (rem.drop 16) _ (by simp [List.length_drop]; omega)]
        have hpad : (16 - (rem.drop 16).length % 16) % 16 =
            (16 - rem.length % 16) % 16 := by
          simp only [List.length_drop]
          omega
        rw [hpad]
        rw [chunk16_cons _ (fun hc => hnil (List.append_eq_nil.mp hc).1)]
        rw [List.take_append_of_le_length h16, List.drop_append_of_le_length h16]
        rw [List.foldl_cons]

/-- Claim C8: for every block cipher and every non-empty input, `wh_AesMp16`
computes the Miyaguchi-Preneel compression exactly as the specification
states it — starting from the all-zero chaining value, each (zero-padded)
16-byte block M updates the chain H to `aes(H, M) XOR M XOR H`, and the
output is the final chaining value; and a null server, null input or output
pointer, or a zero input length returns `WH_ERROR_BADARGS`. -/
theorem she_aes_mp16_miyaguchi_preneel :
    (∀ (aes : List Nat → List Nat → List Nat) (input : List Nat),
      input ≠ [] →
      wh_AesMp16 false false false aes input =
        .ok (sheMp16MiyaguchiPreneel aes input)) ∧
    (∀ (serverNull inNull outNull : Bool)
       (aes : List Nat → List Nat → List Nat) (input : List Nat),
      serverNull = true ∨ inNull = true ∨ outNull = true ∨ input = [] →
      wh_AesMp16 serverNull inNull outNull aes input = .error .badArgs) := by
  constructor
  · intro aes input hne
    unfold wh_AesMp16
    rw [if_neg (by simp [hne])]
    unfold sheMp16MiyaguchiPreneel mp16Go
    rw [mp16GoF_eq_chunks aes input.length input _ (Nat.le_refl _)]
  · intro serverNull inNull outNull aes input hnull
    unfold wh_AesMp16
    rw [if_pos]
    rcases hnull with hh | hh | hh | hh
    · exact Or.inl hh
    · exact Or.inr (Or.inl hh)
    · exact Or.inr (Or.inr (Or.inr hh))
    · exact Or.inr (Or.inr (Or.inl (by simp [hh])))

/-- Witness for C8 at a concrete input: a three-byte input under the modelled
block cipher, and a null-input call. -/
theorem she_aes_mp16_miyaguchi_preneel_witness :
    ([1, 2, 3] : List Nat) ≠ [] ∧
    wh_AesMp16 false false false wc_AesEncryptDirect [1, 2, 3] =
      .ok (sheMp16MiyaguchiPreneel wc_AesEncryptDirect [1, 2, 3]) ∧
    wh_AesMp16 false true false wc_AesEncryptDirect [1, 2, 3] =
      .error .badArgs :=
  ⟨by decide,
   she_aes_mp16_miyaguchi_preneel.1 wc_AesEncryptDirect [1, 2, 3] (by decide),
   she_aes_mp16_miyaguchi_preneel.2 false true false wc_AesEncryptDirect
     [1, 2, 3] (Or.inr (Or.inl rfl))⟩

/-! ## Claims C3 and C10 -/

/-- On a booted session, a LOAD_KEY dispatch is the handler result with the
error coercion applied and no secure-boot reset. -/
theorem core_loadKey_eq (st : SheState) (ks : SheKeystore) (req : SheRequest)
    (huid : st.uidSet = true) (hsb : st.sbState = .sbSuccess) :
    wh_Server_HandleSheRequestCore st ks .loadKey req =
      ⟨sheCoerceRc (hsmSheLoadKey st ks req).ret,
       if sheCoerceRc (hsmSheLoadKey st ks req).ret = .ok
         then (hsmSheLoadKey st ks req).body else .stub,
       (hsmSheLoadKey st ks req).st, (hsmSheLoadKey st ks req).ks⟩ := by
  unfold wh_Server_HandleSheRequestCore
  rw [if_neg (by simp [huid, hsb])]
  simp [sheActionSwitch]

/-- `hsmSheLoadKey` rejects with KEY_UPDATE_ERROR and does not touch the key
store when the target slot exists without write protection and the presented
counter does not exceed the stored one (whatever the M3 and UID checks do,
their failures also produce KEY_UPDATE_ERROR before any write). -/
theorem hsmSheLoadKey_rollback (st : SheState) (ks : SheKeystore)
    (req : SheRequest) (auth target : WhKeyObject)
    (hauth : hsmReadKey ks (hsmShePopAuthId req.messageOne) = some auth)
    (htgt : hsmReadKey ks (hsmShePopId req.messageOne) = some target)
    (hwp : target.meta.flags &&& WOLFHSM_SHE_FLAG_WRITE_PROTECT = 0)
    (hctr : wh_Utils_ntohl (sheM2Counter (sheLoadKeyPlainM2 auth.key req.messageTwo)) ≤
      wh_Utils_ntohl target.meta.count) :
    hsmSheLoadKey st ks req = ⟨.keyUpdateError, .stub, st, ks⟩ := by
  unfold hsmSheLoadKey
  rw [hauth]
  dsimp only
  by_cases hm3 : req.messageThree ≠
      wc_AesCmacGenerate (wh_AesMp16c (auth.key ++ WOLFHSM_SHE_KEY_UPDATE_MAC_C))
        (req.messageOne ++ req.messageTwo)
  · rw [if_pos hm3]
  · rw [if_neg hm3, htgt]
    dsimp only
    rw [if_pos hwp]
    unfold hsmSheLoadKeyWrite
    simp only [Option.getD_some]
    by_cases hz : wh_Utils_memeqzero req.messageOne WOLFHSM_SHE_UID_SZ
    · rw [if_pos hz]
      by_cases hw : target.meta.flags &&& WOLFHSM_SHE_FLAG_WILDCARD = 0
      · rw [if_pos hw]
      · rw [if_neg hw]
        unfold hsmSheLoadKeyWriteCont
        simp only [Option.getD_some, Option.isSome_some]
        rw [if_pos ⟨trivial, hctr⟩]
    · rw [if_neg hz]
      by_cases huidm : req.messageOne.take 15 ≠ st.uid.take 15
      · rw [if_pos huidm]
      · rw [if_neg huidm]
        unfold hsmSheLoadKeyWriteCont
        simp only [Option.getD_some, Option.isSome_some]
        rw [if_pos ⟨trivial, hctr⟩]

/-- Claim C3: for every LOAD_KEY request on a booted session whose
authorization key exists, whose target slot exists and is not
write-protected, and whose decrypted M2 counter is less than or equal to the
counter stored for that slot, the reply is KEY_UPDATE_ERROR and the key store
(NVM and RAM cache alike) is not modified. -/
theorem she_load_key_counter_rollback (st : SheState) (ks : SheKeystore)
    (req : SheRequest) (auth target : WhKeyObject)
    (huid : st.uidSet = true) (hsb : st.sbState = .sbSuccess)
    (hauth : hsmReadKey ks (hsmShePopAuthId req.messageOne) = some auth)
    (htgt : hsmReadKey ks (hsmShePopId req.messageOne) = some target)
    (hwp : target.meta.flags &&& WOLFHSM_SHE_FLAG_WRITE_PROTECT = 0)
    (hctr : wh_Utils_ntohl (sheM2Counter (sheLoadKeyPlainM2 auth.key req.messageTwo)) ≤
      wh_Utils_ntohl target.meta.count) :
    (wh_Server_HandleSheRequestCore st ks .loadKey req).rc = .keyUpdateError ∧
    (wh_Server_HandleSheRequestCore st ks .loadKey req).ks = ks ∧
    (wh_Server_HandleSheRequestCore st ks .loadKey req).st = st := by
  rw [core_loadKey_eq st ks req huid hsb,
    hsmSheLoadKey_rollback st ks req auth target hauth htgt hwp hctr]
  exact ⟨rfl, rfl, rfl⟩

/-- Witness for C3 at a concrete input: slot 4 stores counter `0xFFFFFFF`
(so any presented 28-bit counter is a rollback) and the dispatch replies
KEY_UPDATE_ERROR leaving the store unchanged. -/
theorem she_load_key_counter_rollback_witness :
    ({ uid := List.replicate 15 1, uidSet := true, sbState := .sbSuccess } :
        SheState).uidSet = true ∧
    hsmReadKey
      [(1, ⟨⟨1, 16, 0, 0⟩, List.replicate 16 0⟩),
       (4, ⟨⟨4, 16, 0, 268435455⟩, List.replicate 16 7⟩)]
      (hsmShePopAuthId (List.replicate 15 1 ++ [0x41])) =
        some ⟨⟨1, 16, 0, 0⟩, List.replicate 16 0⟩ ∧
    (wh_Server_HandleSheRequestCore
      { uid := List.replicate 15 1, uidSet := true, sbState := .sbSuccess }
      [(1, ⟨⟨1, 16, 0, 0⟩, List.replicate 16 0⟩),
       (4, ⟨⟨4, 16, 0, 268435455⟩, List.replicate 16 7⟩)]
      .loadKey
      { messageOne := List.replicate 15 1 ++ [0x41],
        messageTwo := List.replicate 32 0,
        messageThree := List.replicate 16 0 }).rc = .keyUpdateError ∧
    (wh_Server_HandleSheRequestCore
      { uid := List.replicate 15 1, uidSet := true, sbState := .sbSuccess }
      [(1, ⟨⟨1, 16, 0, 0⟩, List.replicate 16 0⟩),
       (4, ⟨⟨4, 16, 0, 268435455⟩, List.replicate 16 7⟩)]
      .loadKey
      { messageOne := List.replicate 15 1 ++ [0x41],
        messageTwo := List.replicate 32 0,
        messageThree := List.replicate 16 0 }).ks =
      [(1, ⟨⟨1, 16, 0, 0⟩, List.replicate 16 0⟩),
       (4, ⟨⟨4, 16, 0, 268435455⟩, List.replicate 16 7⟩)] :=
  ⟨rfl, by decide,
   (she_load_key_counter_rollback _ _ _
     ⟨⟨1, 16, 0, 0⟩, List.replicate 16 0⟩
     ⟨⟨4, 16, 0, 268435455⟩, List.replicate 16 7⟩
     rfl rfl (by decide) (by decide) (by decide) (by decide)).1,
   (she_load_key_counter_rollback _ _ _
     ⟨⟨1, 16, 0, 0⟩, List.replicate 16 0⟩
     ⟨⟨4, 16, 0, 268435455⟩, List.replicate 16 7⟩
     rfl rfl (by decide) (by decide) (by decide) (by decide)).2.1⟩

/-- `hsmSheLoadKey` rejects with KEY_UPDATE_ERROR and does not touch the key
store when M1 carries an all-zero UID and the target slot is absent: the
wildcard check reads the zero-initialized metadata, whose WILDCARD flag is
clear. -/
theorem hsmSheLoadKey_wildcard_absent (st : SheState) (ks : SheKeystore)
    (req : SheRequest) (auth : WhKeyObject)
    (hauth : hsmReadKey ks (hsmShePopAuthId req.messageOne) = some auth)
    (hzero : wh_Utils_memeqzero req.messageOne WOLFHSM_SHE_UID_SZ = true)
    (habsent : hsmReadKey ks (hsmShePopId req.messageOne) = none) :
    hsmSheLoadKey st ks req = ⟨.keyUpdateError, .stub, st, ks⟩ := by
  unfold hsmSheLoadKey
  rw [hauth]
  dsimp only
  by_cases hm3 : req.messageThree ≠
      wc_AesCmacGenerate (wh_AesMp16c (auth.key ++ WOLFHSM_SHE_KEY_UPDATE_MAC_C))
        (req.messageOne ++ req.messageTwo)
  · rw [if_pos hm3]
  · rw [if_neg hm3, habsent]
    unfold hsmSheLoadKeyWrite
    simp only [Option.getD_none]
    rw [if_pos hzero, if_pos (by decide)]

/-- Claim C10: for every LOAD_KEY request on a booted session whose
authorization key exists, whose M1 UID field is all zeros and whose target
slot does not exist in the key store, the reply is KEY_UPDATE_ERROR and no
key is written: the wildcard path requires the WILDCARD flag of the stored
metadata, and an absent slot has the zero-initialized metadata with that
flag clear, so a wildcard update can never create a new slot. -/
theorem she_load_key_wildcard_absent_slot (st : SheState) (ks : SheKeystore)
    (req : SheRequest) (auth : WhKeyObject)
    (huid : st.uidSet = true) (hsb : st.sbState = .sbSuccess)
    (hauth : hsmReadKey ks (hsmShePopAuthId req.messageOne) = some auth)
    (hzero : wh_Utils_memeqzero req.messageOne WOLFHSM_SHE_UID_SZ = true)
    (habsent : hsmReadKey ks (hsmShePopId req.messageOne) = none) :
    (wh_Server_HandleSheRequestCore st ks .loadKey req).rc = .keyUpdateError ∧
    (wh_Server_HandleSheRequestCore st ks .loadKey req).ks = ks ∧
    (wh_Server_HandleSheRequestCore st ks .loadKey req).st = st := by
  rw [core_loadKey_eq st ks req huid hsb,
    hsmSheLoadKey_wildcard_absent st ks req auth hauth hzero habsent]
  exact ⟨rfl, rfl, rfl⟩

/-- Witness for C10 at a concrete input: an all-zero M1 UID targeting the
absent slot 4 is refused with KEY_UPDATE_ERROR and writes nothing. -/
theorem she_load_key_wildcard_absent_slot_witness :
    hsmReadKey [(1, ⟨⟨1, 16, 0, 0⟩, List.replicate 16 0⟩)]
      (hsmShePopId (List.replicate 15 0 ++ [0x41])) = none ∧
    (wh_Server_HandleSheRequestCore
      { uid := List.replicate 15 1, uidSet := true, sbState := .sbSuccess }
      [(1, ⟨⟨1, 16, 0, 0⟩, List.replicate 16 0⟩)]
      .loadKey
      { messageOne := List.replicate 15 0 ++ [0x41],
        messageTwo := List.replicate 32 0,
        messageThree := List.replicate 16 0 }).rc = .keyUpdateError ∧
    (wh_Server_HandleSheRequestCore
      { uid := List.replicate 15 1, uidSet := true, sbState := .sbSuccess }
      [(1, ⟨⟨1, 16, 0, 0⟩, List.replicate 16 0⟩)]
      .loadKey
      { messageOne := List.replicate 15 0 ++ [0x41],
        messageTwo := List.replicate 32 0,
        messageThree := List.replicate 16 0 }).ks =
      [(1, ⟨⟨1, 16, 0, 0⟩, List.replicate 16 0⟩)] :=
  ⟨by decide,
   (she_load_key_wildcard_absent_slot _ _ _ ⟨⟨1, 16, 0, 0⟩, List.replicate 16 0⟩
     rfl rfl (by decide) (by decide) (by decide)).1,
   (she_load_key_wildcard_absent_slot _ _ _ ⟨⟨1, 16, 0, 0⟩, List.replicate 16 0⟩
     rfl rfl (by decide) (by decide) (by decide)).2.1⟩

/-! ## Claim C4 -/

/-- Setting bit 3 in a byte whose low nibble is clear is addition of 8. -/
theorem lor8_of_mod16 : ∀ r < 256, r % 16 = 0 → r ||| 8 = r + 8 := by decide

/-- The four big-endian bytes of a 32-bit value, written out. -/
theorem toBytesBE_four (v : Nat) :
    toBytesBE 4 v = [v / 16777216 % 256, v / 65536 % 256, v / 256 % 256, v % 256] := by
  simp [toBytesBE, Nat.div_div_eq_div_mul]

/-- Writing `count << 4` as a 32-bit big-endian word and OR-ing `0x08` into
its last byte (lines 496-498) yields the bytes of `(count << 4) + 8`: the
counter shifted left 4 with the low nibble set to the padding pattern
`1000`. -/
theorem sheCtrBytes_eq (c : Nat) :
    (toBytesBE 4 (u32 (c <<< 4))).set 3
      ((toBytesBE 4 (u32 (c <<< 4))).getD 3 0 ||| 8) =
    toBytesBE 4 (u32 (c <<< 4) + 8) := by
  have hv16 : u32 (c <<< 4) % 16 = 0 := by
    unfold u32
    rw [Nat.shiftLeft_eq]
    rw [Nat.mod_mod_of_dvd _ (by norm_num : (16:Nat) ∣ 4294967296)]
    simp [Nat.mul_mod_left]
  set v := u32 (c <<< 4) with hv
  have h1 : (v + 8) % 256 = v % 256 + 8 := by omega
  have h2 : (v + 8) / 256 = v / 256 := by omega
  have h3 : v % 256 % 16 = 0 := by omega
  have h4 : v % 256 ||| 8 = v % 256 + 8 :=
    lor8_of_mod16 _ (Nat.mod_lt _ (by norm_num)) h3
  rw [toBytesBE_four, toBytesBE_four]
  simp only [List.set, List.getD, List.get?, List.getElem?_cons_succ,
    List.getElem?_cons_zero]
  have h5 : (v + 8) / 65536 = v / 65536 := by omega
  have h6 : (v + 8) / 16777216 = v / 16777216 := by omega
  rw [h1, h2, h5, h6, ← h4]
  simp

/-- The M4/M5 phase of LOAD_KEY always succeeds, leaves the key store as
given, and builds M4 from the session UID, M1's last byte, and the encrypted
block whose first four bytes carry the padded stored counter. -/
theorem hsmSheLoadKeyM4_shape (st : SheState) (ks1 : SheKeystore)
    (m1 plainM2 : List Nat) (storedCount : Nat) :
    (hsmSheLoadKeyM4 st ks1 m1 plainM2 storedCount).ret = .ok ∧
    (hsmSheLoadKeyM4 st ks1 m1 plainM2 storedCount).ks = ks1 ∧
    ∃ m5, (hsmSheLoadKeyM4 st ks1 m1 plainM2 storedCount).body =
      .loadKey
        (st.uid.take 15 ++ [m1.getD 15 0] ++
          wc_AesEncryptDirect
            (wh_AesMp16c (sheLoadKeyNewKey plainM2 ++ WOLFHSM_SHE_KEY_UPDATE_ENC_C))
            (toBytesBE 4 (u32 (storedCount <<< 4) + 8) ++ (plainM2.drop 4).take 12))
        m5 := by
  unfold hsmSheLoadKeyM4
  refine ⟨rfl, rfl, ?_⟩
  dsimp only
  rw [sheCtrBytes_eq]
  exact ⟨_, rfl⟩

/-- When the counter-check-and-write phase of LOAD_KEY returns NO_ERROR, the
target slot of the resulting key store holds the new key with the presented
counter (the top 28 bits of decrypted M2's first word) and flags, and the
reply carries the M4 described by the padded-counter block. -/
theorem hsmSheLoadKeyWriteCont_ok_shape (st : SheState) (ks : SheKeystore)
    (m1 plainM2 : List Nat) (found : Option WhNvmMetadata)
    (hret : (hsmSheLoadKeyWriteCont st ks m1 plainM2 found).ret = .ok) :
    ∃ m5,
      hsmReadKey (hsmSheLoadKeyWriteCont st ks m1 plainM2 found).ks
        (hsmShePopId m1) =
        some ⟨{ id := hsmShePopId m1,
                len := WOLFHSM_SHE_KEY_SZ,
                flags := hsmShePopFlags plainM2,
                count := sheM2Counter plainM2 },
              sheLoadKeyNewKey plainM2⟩ ∧
      (hsmSheLoadKeyWriteCont st ks m1 plainM2 found).body =
        .loadKey
          (st.uid.take 15 ++ [m1.getD 15 0] ++
            wc_AesEncryptDirect
              (wh_AesMp16c (sheLoadKeyNewKey plainM2 ++ WOLFHSM_SHE_KEY_UPDATE_ENC_C))
              (toBytesBE 4 (u32 (sheM2Counter plainM2 <<< 4) + 8) ++
                (plainM2.drop 4).take 12))
          m5 := by
  unfold hsmSheLoadKeyWriteCont at hret ⊢
  by_cases hc : found.isSome ∧
      wh_Utils_ntohl (ofBytesBE (plainM2.take 4) >>> 4) ≤
        wh_Utils_ntohl (found.getD {}).count
  · rw [if_pos hc] at hret
    simp at hret
  · rw [if_neg hc] at hret ⊢
    dsimp only at hret ⊢
    by_cases hid : hsmShePopId m1 = WOLFHSM_SHE_RAM_KEY_ID
    · rw [if_pos hid] at hret ⊢
      obtain ⟨hr, hks, m5, hbody⟩ := hsmSheLoadKeyM4_shape st
        (whKeystorePut ks (hsmShePopId m1)
          ⟨{ id := hsmShePopId m1, len := WOLFHSM_SHE_KEY_SZ,
             flags := hsmShePopFlags plainM2,
             count := ofBytesBE (plainM2.take 4) >>> 4 },
           sheLoadKeyNewKey plainM2⟩) m1 plainM2
        (ofBytesBE (plainM2.take 4) >>> 4)
      exact ⟨m5, by rw [hks, hsmReadKey_whKeystorePut]; rfl, hbody⟩
    · rw [if_neg hid] at hret ⊢
      rw [hsmReadKey_whKeystorePut] at hret ⊢
      dsimp only at hret ⊢
      obtain ⟨hr, hks, m5, hbody⟩ := hsmSheLoadKeyM4_shape st
        (whKeystorePut ks (hsmShePopId m1)
          ⟨{ id := hsmShePopId m1, len := WOLFHSM_SHE_KEY_SZ,
             flags := hsmShePopFlags plainM2,
             count := ofBytesBE (plainM2.take 4) >>> 4 },
           sheLoadKeyNewKey plainM2⟩) m1 plainM2
        (ofBytesBE (plainM2.take 4) >>> 4)
      exact ⟨m5, by rw [hks, hsmReadKey_whKeystorePut]; rfl, hbody⟩

/-- The UID/wildcard phase of LOAD_KEY preserves the success shape of the
write phase. -/
theorem hsmSheLoadKeyWrite_ok_shape (st : SheState) (ks : SheKeystore)
    (m1 plainM2 : List Nat) (found : Option WhNvmMetadata)
    (hret : (hsmSheLoadKeyWrite st ks m1 plainM2 found).ret = .ok) :
    ∃ m5,
      hsmReadKey (hsmSheLoadKeyWrite st ks m1 plainM2 found).ks
        (hsmShePopId m1) =
        some ⟨{ id := hsmShePopId m1,
                len := WOLFHSM_SHE_KEY_SZ,
                flags := hsmShePopFlags plainM2,
                count := sheM2Counter plainM2 },
              sheLoadKeyNewKey plainM2⟩ ∧
      (hsmSheLoadKeyWrite st ks m1 plainM2 found).body =
        .loadKey
          (st.uid.take 15 ++ [m1.getD 15 0] ++
            wc_AesEncryptDirect
              (wh_AesMp16c (sheLoadKeyNewKey plainM2 ++ WOLFHSM_SHE_KEY_UPDATE_ENC_C))
              (toBytesBE 4 (u32 (sheM2Counter plainM2 <<< 4) + 8) ++
                (plainM2.drop 4).take 12))
          m5 := by
  unfold hsmSheLoadKeyWrite at hret ⊢
  by_cases hz : wh_Utils_memeqzero m1 WOLFHSM_SHE_UID_SZ
  · rw [if_pos hz] at hret ⊢
    by_cases hw : (found.getD {}).flags &&& WOLFHSM_SHE_FLAG_WILDCARD = 0
    · rw [if_pos hw] at hret
      simp at hret
    · rw [if_neg hw] at hret ⊢
      exact hsmSheLoadKeyWriteCont_ok_shape st ks m1 plainM2 found hret
  · rw [if_neg hz] at hret ⊢
    by_cases hu : m1.take 15 ≠ st.uid.take 15
    · rw [if_pos hu] at hret
      simp at hret
    · rw [if_neg hu] at hret ⊢
      exact hsmSheLoadKeyWriteCont_ok_shape st ks m1 plainM2 found hret

/-- Inversion of a successful `hsmSheLoadKey`: whenever the handler returns
NO_ERROR, the target slot holds the delivered key with the presented counter
and M4 carries that counter, shifted and padded, under K3. -/
theorem hsmSheLoadKey_ok_shape (st : SheState) (ks : SheKeystore)
    (req : SheRequest) (auth : WhKeyObject)
    (hauth : hsmReadKey ks (hsmShePopAuthId req.messageOne) = some auth)
    (hret : (hsmSheLoadKey st ks req).ret = .ok) :
    ∃ m5,
      hsmReadKey (hsmSheLoadKey st ks req).ks (hsmShePopId req.messageOne) =
        some ⟨{ id := hsmShePopId req.messageOne,
                len := WOLFHSM_SHE_KEY_SZ,
                flags := hsmShePopFlags (sheLoadKeyPlainM2 auth.key req.messageTwo),
                count := sheM2Counter (sheLoadKeyPlainM2 auth.key req.messageTwo) },
              sheLoadKeyNewKey (sheLoadKeyPlainM2 auth.key req.messageTwo)⟩ ∧
      (hsmSheLoadKey st ks req).body =
        .loadKey
          (st.uid.take 15 ++ [req.messageOne.getD 15 0] ++
            wc_AesEncryptDirect
              (wh_AesMp16c (sheLoadKeyNewKey (sheLoadKeyPlainM2 auth.key req.messageTwo) ++
                WOLFHSM_SHE_KEY_UPDATE_ENC_C))
              (toBytesBE 4
                  (u32 (sheM2Counter (sheLoadKeyPlainM2 auth.key req.messageTwo) <<< 4) + 8) ++
                ((sheLoadKeyPlainM2 auth.key req.messageTwo).drop 4).take 12))
          m5 := by
  unfold hsmSheLoadKey at hret ⊢
  rw [hauth] at hret ⊢
  dsimp only at hret ⊢
  by_cases hm3 : req.messageThree ≠
      wc_AesCmacGenerate (wh_AesMp16c (auth.key ++ WOLFHSM_SHE_KEY_UPDATE_MAC_C))
        (req.messageOne ++ req.messageTwo)
  · rw [if_pos hm3] at hret
    simp at hret
  · rw [if_neg hm3] at hret ⊢
    rcases htg : hsmReadKey ks (hsmShePopId req.messageOne) with _ | target
    · rw [htg] at hret
      dsimp only at hret ⊢
      exact hsmSheLoadKeyWrite_ok_shape st ks req.messageOne
        (sheLoadKeyPlainM2 auth.key req.messageTwo) none hret
    · rw [htg] at hret
      dsimp only at hret ⊢
      by_cases hwp : target.meta.flags &&& WOLFHSM_SHE_FLAG_WRITE_PROTECT = 0
      · rw [if_pos hwp] at hret ⊢
        exact hsmSheLoadKeyWrite_ok_shape st ks req.messageOne
          (sheLoadKeyPlainM2 auth.key req.messageTwo) (some target.meta) hret
      · rw [if_neg hwp] at hret
        simp at hret

/-- Claim C4: after every LOAD_KEY dispatch that replies NO_ERROR (on a
booted session whose authorization key exists), the counter stored in the
target slot's metadata equals the top 28 bits (read in network byte order)
of the first 32 bits of the decrypted M2, and the counter encrypted into M4
is that stored counter shifted left 4 bits with the low nibble set to the
padding pattern 1000. -/
theorem she_load_key_counter_stored (st : SheState) (ks : SheKeystore)
    (req : SheRequest) (auth : WhKeyObject)
    (huid : st.uidSet = true) (hsb : st.sbState = .sbSuccess)
    (hauth : hsmReadKey ks (hsmShePopAuthId req.messageOne) = some auth)
    (hok : (wh_Server_HandleSheRequestCore st ks .loadKey req).rc = .ok) :
    ∃ m5,
      hsmReadKey (wh_Server_HandleSheRequestCore st ks .loadKey req).ks
        (hsmShePopId req.messageOne) =
        some ⟨{ id := hsmShePopId req.messageOne,
                len := WOLFHSM_SHE_KEY_SZ,
                flags := hsmShePopFlags (sheLoadKeyPlainM2 auth.key req.messageTwo),
                count := sheM2Counter (sheLoadKeyPlainM2 auth.key req.messageTwo) },
              sheLoadKeyNewKey (sheLoadKeyPlainM2 auth.key req.messageTwo)⟩ ∧
      (wh_Server_HandleSheRequestCore st ks .loadKey req).body =
        .loadKey
          (st.uid.take 15 ++ [req.messageOne.getD 15 0] ++
            wc_AesEncryptDirect
              (wh_AesMp16c (sheLoadKeyNewKey (sheLoadKeyPlainM2 auth.key req.messageTwo) ++
                WOLFHSM_SHE_KEY_UPDATE_ENC_C))
              (toBytesBE 4
                  (u32 (sheM2Counter (sheLoadKeyPlainM2 auth.key req.messageTwo) <<< 4) + 8) ++
                ((sheLoadKeyPlainM2 auth.key req.messageTwo).drop 4).take 12))
          m5 := by
  rw [core_loadKey_eq st ks req huid hsb] at hok ⊢
  dsimp only at hok ⊢
  have hret := (sheCoerceRc_eq_ok_iff _).mp hok
  obtain ⟨m5, h1, h2⟩ := hsmSheLoadKey_ok_shape st ks req auth hauth hret
  refine ⟨m5, h1, ?_⟩
  rw [if_pos hok]
  exact h2

/-- Witness for C4 at a concrete input: a valid LOAD_KEY into the absent
slot 4 authorized by slot 1 replies NO_ERROR and stores the decrypted
counter. -/
theorem she_load_key_counter_stored_witness :
    hsmReadKey [(1, ⟨⟨1, 16, 0, 0⟩, List.replicate 16 0⟩)]
      (hsmShePopAuthId (List.replicate 15 1 ++ [0x41])) =
      some ⟨⟨1, 16, 0, 0⟩, List.replicate 16 0⟩ ∧
    (wh_Server_HandleSheRequestCore
      { uid := List.replicate 15 1, uidSet := true, sbState := .sbSuccess }
      [(1, ⟨⟨1, 16, 0, 0⟩, List.replicate 16 0⟩)]
      .loadKey
      { messageOne := List.replicate 15 1 ++ [0x41],
        messageTwo := List.replicate 32 0,
        messageThree := wc_AesCmacGenerate
          (wh_AesMp16c (List.replicate 16 0 ++ WOLFHSM_SHE_KEY_UPDATE_MAC_C))
          ((List.replicate 15 1 ++ [0x41]) ++ List.replicate 32 0) }).rc = .ok ∧
    (∃ m5,
      hsmReadKey (wh_Server_HandleSheRequestCore
        { uid := List.replicate 15 1, uidSet := true, sbState := .sbSuccess }
        [(1, ⟨⟨1, 16, 0, 0⟩, List.replicate 16 0⟩)]
        .loadKey
        { messageOne := List.replicate 15 1 ++ [0x41],
          messageTwo := List.replicate 32 0,
          messageThree := wc_AesCmacGenerate
            (wh_AesMp16c (List.replicate 16 0 ++ WOLFHSM_SHE_KEY_UPDATE_MAC_C))
            ((List.replicate 15 1 ++ [0x41]) ++ List.replicate 32 0) }).ks
        (hsmShePopId (List.replicate 15 1 ++ [0x41])) =
        some ⟨{ id := hsmShePopId (List.replicate 15 1 ++ [0x41]),
                len := WOLFHSM_SHE_KEY_SZ,
                flags := hsmShePopFlags (sheLoadKeyPlainM2 (List.replicate 16 0)
                  (List.replicate 32 0)),
                count := sheM2Counter (sheLoadKeyPlainM2 (List.replicate 16 0)
                  (List.replicate 32 0)) },
              sheLoadKeyNewKey (sheLoadKeyPlainM2 (List.replicate 16 0)
                (List.replicate 32 0))⟩ ∧
      (wh_Server_HandleSheRequestCore
        { uid := List.replicate 15 1, uidSet := true, sbState := .sbSuccess }
        [(1, ⟨⟨1, 16, 0, 0⟩, List.replicate 16 0⟩)]
        .loadKey
        { messageOne := List.replicate 15 1 ++ [0x41],
          messageTwo := List.replicate 32 0,
          messageThree := wc_AesCmacGenerate
            (wh_AesMp16c (List.replicate 16 0 ++ WOLFHSM_SHE_KEY_UPDATE_MAC_C))
            ((List.replicate 15 1 ++ [0x41]) ++ List.replicate 32 0) }).body =
        .loadKey
          ((List.replicate 15 1).take 15 ++
            [(List.replicate 15 1 ++ [0x41]).getD 15 0] ++
            wc_AesEncryptDirect
              (wh_AesMp16c (sheLoadKeyNewKey (sheLoadKeyPlainM2 (List.replicate 16 0)
                (List.replicate 32 0)) ++ WOLFHSM_SHE_KEY_UPDATE_ENC_C))
              (toBytesBE 4
                  (u32 (sheM2Counter (sheLoadKeyPlainM2 (List.replicate 16 0)
                    (List.replicate 32 0)) <<< 4) + 8) ++
                ((sheLoadKeyPlainM2 (List.replicate 16 0)
                  (List.replicate 32 0)).drop 4).take 12))
          m5) :=
  ⟨by decide, by decide,
   she_load_key_counter_stored
     { uid := List.replicate 15 1, uidSet := true, sbState := .sbSuccess }
     [(1, ⟨⟨1, 16, 0, 0⟩, List.replicate 16 0⟩)]
     { messageOne := List.replicate 15 1 ++ [0x41],
       messageTwo := List.replicate 32 0,
       messageThree := wc_AesCmacGenerate
         (wh_AesMp16c (List.replicate 16 0 ++ WOLFHSM_SHE_KEY_UPDATE_MAC_C))
         ((List.replicate 15 1 ++ [0x41]) ++ List.replicate 32 0) }
     ⟨⟨1, 16, 0, 0⟩, List.replicate 16 0⟩
     rfl rfl (by decide) (by decide)⟩

/-! ## Claim C5 -/

/-- Claim C5, evaluated at concrete inputs (code bug): GEN_MAC over the
stored key of slot 4 replies NO_ERROR with the CMAC, and VERIFY_MAC with the
same key, message and produced MAC replies status 0 with rc NO_ERROR.  But
when one bit of the MAC (or of the message) is flipped, the handler records
status 1 in the response fields and then returns the backend's nonzero
compare code, so the dispatcher truncates the sized reply to the bare rc stub
(coerced to GENERAL_ERROR): the transmitted reply carries no status field at
all, contradicting the claim's `status = 1` reply. -/
theorem she_verify_mac_truncated_reply :
    (wh_Server_HandleSheRequestCore
      { uid := List.replicate 15 1, uidSet := true, sbState := .sbSuccess }
      [(4, ⟨⟨4, 16, 0, 0⟩, List.replicate 16 0⟩)]
      .genMac { keyId := 4, sz := 2, inData := [0xAA, 0xBB] }).rc = .ok ∧
    (wh_Server_HandleSheRequestCore
      { uid := List.replicate 15 1, uidSet := true, sbState := .sbSuccess }
      [(4, ⟨⟨4, 16, 0, 0⟩, List.replicate 16 0⟩)]
      .genMac { keyId := 4, sz := 2, inData := [0xAA, 0xBB] }).body =
      .mac (wc_AesCmacGenerate (List.replicate 16 0) [0xAA, 0xBB]) ∧
    (wh_Server_HandleSheRequestCore
      { uid := List.replicate 15 1, uidSet := true, sbState := .sbSuccess }
      [(4, ⟨⟨4, 16, 0, 0⟩, List.replicate 16 0⟩)]
      .verifyMac
      { keyId := 4, messageLen := 2, macLen := 16, inData := [0xAA, 0xBB],
        macData := wc_AesCmacGenerate (List.replicate 16 0) [0xAA, 0xBB] }).rc =
      .ok ∧
    (wh_Server_HandleSheRequestCore
      { uid := List.replicate 15 1, uidSet := true, sbState := .sbSuccess }
      [(4, ⟨⟨4, 16, 0, 0⟩, List.replicate 16 0⟩)]
      .verifyMac
      { keyId := 4, messageLen := 2, macLen := 16, inData := [0xAA, 0xBB],
        macData := wc_AesCmacGenerate (List.replicate 16 0) [0xAA, 0xBB] }).body =
      .verify 0 ∧
    (hsmSheVerifyMac
      { uid := List.replicate 15 1, uidSet := true, sbState := .sbSuccess }
      [(4, ⟨⟨4, 16, 0, 0⟩, List.replicate 16 0⟩)]
      { keyId := 4, messageLen := 2, macLen := 16, inData := [0xAA, 0xBB],
        macData := (wc_AesCmacGenerate (List.replicate 16 0) [0xAA, 0xBB]).set 0
          ((wc_AesCmacGenerate (List.replicate 16 0) [0xAA, 0xBB]).getD 0 0 ^^^ 1) }).body =
      .verify 1 ∧
    (hsmSheVerifyMac
      { uid := List.replicate 15 1, uidSet := true, sbState := .sbSuccess }
      [(4, ⟨⟨4, 16, 0, 0⟩, List.replicate 16 0⟩)]
      { keyId := 4, messageLen := 2, macLen := 16, inData := [0xAA, 0xBB],
        macData := (wc_AesCmacGenerate (List.replicate 16 0) [0xAA, 0xBB]).set 0
          ((wc_AesCmacGenerate (List.replicate 16 0) [0xAA, 0xBB]).getD 0 0 ^^^ 1) }).ret ≠
      .ok ∧
    (wh_Server_HandleSheRequestCore
      { uid := List.replicate 15 1, uidSet := true, sbState := .sbSuccess }
      [(4, ⟨⟨4, 16, 0, 0⟩, List.replicate 16 0⟩)]
      .verifyMac
      { keyId := 4, messageLen := 2, macLen := 16, inData := [0xAA, 0xBB],
        macData := (wc_AesCmacGenerate (List.replicate 16 0) [0xAA, 0xBB]).set 0
          ((wc_AesCmacGenerate (List.replicate 16 0) [0xAA, 0xBB]).getD 0 0 ^^^ 1) }).rc =
      .generalError ∧
    (wh_Server_HandleSheRequestCore
      { uid := List.replicate 15 1, uidSet := true, sbState := .sbSuccess }
      [(4, ⟨⟨4, 16, 0, 0⟩, List.replicate 16 0⟩)]
      .verifyMac
      { keyId := 4, messageLen := 2, macLen := 16, inData := [0xAA, 0xBB],
        macData := (wc_AesCmacGenerate (List.replicate 16 0) [0xAA, 0xBB]).set 0
          ((wc_AesCmacGenerate (List.replicate 16 0) [0xAA, 0xBB]).getD 0 0 ^^^ 1) }).body =
      .stub ∧
    (hsmSheVerifyMac
      { uid := List.replicate 15 1, uidSet := true, sbState := .sbSuccess }
      [(4, ⟨⟨4, 16, 0, 0⟩, List.replicate 16 0⟩)]
      { keyId := 4, messageLen := 2, macLen := 16, inData := [0xAB, 0xBB],
        macData := wc_AesCmacGenerate (List.replicate 16 0) [0xAA, 0xBB] }).body =
      .verify 1 ∧
    (wh_Server_HandleSheRequestCore
      { uid := List.replicate 15 1, uidSet := true, sbState := .sbSuccess }
      [(4, ⟨⟨4, 16, 0, 0⟩, List.replicate 16 0⟩)]
      .verifyMac
      { keyId := 4, messageLen := 2, macLen := 16, inData := [0xAB, 0xBB],
        macData := wc_AesCmacGenerate (List.replicate 16 0) [0xAA, 0xBB] }).body =
      .stub := by
  refine ⟨by decide, by decide, by decide, by decide, by decide, by decide,
    by decide, by decide, by decide, by decide⟩
